import Mathlib

/-!
# TransmitHMI: the signal panel engine (`lvgl_port/src/logic.c`), its LVGL panel
(`lvgl_port/src/ui_signal_panel.c`) and the footer of the second UI (`lvgl_ui/ui_footer.c`)

Conventions of the embedding.

* A C string is the list of its bytes before the terminating NUL (`Bytes`).
  `snprintf(dst, n, "%s", src)` stores `src.take (n - 1)`; `strcmp(a, b) == 0` is `a = b`;
  `strlen(a) == 0` and `a[0] == 0` are `a = []`.
* `int` fields are `Int`. `log_count` never overflows (it is reset before it can pass 256);
  `next_log_id++` is taken modulo 2^32 in two's complement (`wrap_int`).
* The array `logs[256]` is a function on `Fin 256`. A write through an index outside
  `0 .. 255` (possible only when `log_count` is negative, which no operation produces) lands
  outside the array and changes no cell of it.
* `make_timestamp` reads the wall clock; the broken-down local time it obtains is an argument
  (`Tm`) of every operation that logs.
-/

namespace TransmitHMI

/-! ## C strings -/

/-- Contents of a C string: its bytes before the terminating NUL. -/
abbrev Bytes := List Nat

/-- UTF-8 encoding of one character, as the compiler stores it in a string literal. -/
def utf8_encode (c : Char) : List Nat :=
  if c.toNat < 128 then [c.toNat]
  else if c.toNat < 2048 then [192 + c.toNat / 64, 128 + c.toNat % 64]
  else if c.toNat < 65536 then
    [224 + c.toNat / 4096, 128 + c.toNat / 64 % 64, 128 + c.toNat % 64]
  else [240 + c.toNat / 262144, 128 + c.toNat / 4096 % 64, 128 + c.toNat / 64 % 64,
    128 + c.toNat % 64]

/-- Bytes of a string literal of the (UTF-8 encoded) source. -/
def cstr (s : String) : Bytes := s.data.flatMap utf8_encode

/-- The effect of `snprintf(dst, n, "%s", src)` on `dst`: at most `n - 1` bytes are stored. -/
def snprintf_s (n : Nat) (src : Bytes) : Bytes := src.take (n - 1)

/-- Two's complement wrap of an `int` (32 bits). -/
def wrap_int (x : Int) : Int := (x + 2147483648) % 4294967296 - 2147483648

/-! ## logic.h -/

inductive ViewMode where
  | VIEW_AUTO
  | VIEW_MANUAL
deriving DecidableEq, Repr

inductive LogType where
  | LOG_TX
  | LOG_RX
deriving DecidableEq, Repr

structure LogMessage where
  id : Int
  type : LogType
  timestamp : Bytes
  message : Bytes
deriving DecidableEq, Repr

structure SignalPanelState where
  selectedScene : Bytes
  selectedCategory : Bytes
  selectedFunction : Bytes
  isTransmitting : Int
  isRepeating : Int
  isConnected : Int
  viewMode : ViewMode
  manualId : Bytes
  manualData : Bytes
  manualRepeat : Int
  manualInterval : Int
  logs : Fin 256 → LogMessage
  log_count : Int
  next_log_id : Int

/-! ## logic.c -/

def categories : Fin 3 → Bytes
  | 0 => cstr "显示 (Display)"
  | 1 => cstr "声音 (Sound)"
  | 2 => cstr "检查 (Inspection)"

def display_funcs : Fin 3 → Bytes
  | 0 => cstr "启动发动机"
  | 1 => cstr "油门控制"
  | 2 => cstr "刹车控制"

def sound_funcs : Fin 3 → Bytes
  | 0 => cstr "开启车灯"
  | 1 => cstr "解锁车门"
  | 2 => cstr "调节座椅"

def inspection_funcs : Fin 3 → Bytes
  | 0 => cstr "激活ABS"
  | 1 => cstr "气囊检测"
  | 2 => cstr "胎压监测"

def repeat_interval_for (func : Bytes) : Int :=
  if func = cstr "调节座椅" then 2000
  else if func = cstr "气囊检测" then 3000
  else if func = cstr "油门控制" then 1500
  else 0

/-- The fields of `struct tm` that `make_timestamp` prints. -/
structure Tm where
  tm_hour : Int
  tm_min : Int
  tm_sec : Int
deriving DecidableEq, Repr

/-- Decimal digits of a natural number, as bytes. -/
def decimal (n : Nat) : Bytes := (Nat.toDigits 10 n).map Char.toNat

/-- Conversion `%02d`. -/
def fmt_02d (n : Int) : Bytes :=
  if 0 ≤ n then (if n < 10 then 48 :: decimal n.toNat else decimal n.toNat)
  else 45 :: decimal (-n).toNat

/-- `make_timestamp`, from the local time `tmv` that `localtime(&t)` returned. -/
def make_timestamp (tmv : Tm) : Bytes :=
  snprintf_s 32 (fmt_02d tmv.tm_hour ++ cstr ":" ++ fmt_02d tmv.tm_min ++ cstr ":" ++
    fmt_02d tmv.tm_sec)

def logic_init : SignalPanelState :=
  { selectedScene := cstr "B"
    selectedCategory := categories 0
    selectedFunction := display_funcs 0
    isTransmitting := 0
    isRepeating := 0
    isConnected := 0
    viewMode := ViewMode.VIEW_AUTO
    manualId := []
    manualData := []
    manualRepeat := 0
    manualInterval := 1000
    logs := fun _ => { id := 0, type := LogType.LOG_TX, timestamp := [], message := [] }
    log_count := 0
    next_log_id := 0 }

/-- The index `logic_add_log` writes at: `log_count` after `if(log_count >= 256) log_count = 0`. -/
def log_slot (s : SignalPanelState) : Int :=
  if s.log_count ≥ 256 then 0 else s.log_count

/-- The entry `logic_add_log` stores. -/
def new_entry (s : SignalPanelState) (type : LogType) (msg : Bytes) (tmv : Tm) : LogMessage :=
  { id := s.next_log_id
    type := type
    timestamp := make_timestamp tmv
    message := snprintf_s 160 msg }

def logic_add_log (s : SignalPanelState) (type : LogType) (msg : Bytes) (tmv : Tm) :
    SignalPanelState :=
  { s with
    logs := fun i => if (i.val : Int) = log_slot s then new_entry s type msg tmv else s.logs i
    log_count := log_slot s + 1
    next_log_id := wrap_int (s.next_log_id + 1) }

def logic_get_repeat_interval_for_function (func : Bytes) : Int :=
  repeat_interval_for func

def logic_set_scene (s : SignalPanelState) (scene : Bytes) (tmv : Tm) : SignalPanelState :=
  let s1 := { s with selectedScene := snprintf_s 8 scene }
  if s1.isConnected ≠ 0 then logic_add_log s1 LogType.LOG_TX s1.selectedScene tmv else s1

def logic_set_category (s : SignalPanelState) (category : Bytes) : SignalPanelState :=
  { s with
    selectedCategory := snprintf_s 32 category
    selectedFunction := snprintf_s 32
      (if category = categories 1 then sound_funcs 0
       else if category = categories 2 then inspection_funcs 0
       else display_funcs 0) }

def logic_set_function (s : SignalPanelState) (func : Bytes) : SignalPanelState :=
  { s with selectedFunction := snprintf_s 32 func }

def logic_toggle_connected (s : SignalPanelState) : SignalPanelState :=
  { s with isConnected := if s.isConnected = 0 then 1 else 0 }

def logic_clear_logs (s : SignalPanelState) : SignalPanelState :=
  { s with log_count := 0 }

/-- The buffer `snprintf(buf, 160, "%s - %s", selectedCategory, selectedFunction)` fills. -/
def auto_text (s : SignalPanelState) : Bytes :=
  snprintf_s 160 (s.selectedCategory ++ cstr " - " ++ s.selectedFunction)

/-- The buffer `snprintf(buf, 200, "CAN ID: %s | Data: %s", manualId, manualData)` fills. -/
def manual_text (s : SignalPanelState) : Bytes :=
  snprintf_s 200 (cstr "CAN ID: " ++ s.manualId ++ cstr " | Data: " ++ s.manualData)

def logic_start_repeating_auto (s : SignalPanelState) (tmv : Tm) : SignalPanelState :=
  let s1 := { s with isTransmitting := 1, isRepeating := 1 }
  logic_add_log s1 LogType.LOG_TX (auto_text s1) tmv

def logic_repeat_auto_tick (s : SignalPanelState) (tmv : Tm) : SignalPanelState :=
  logic_add_log s LogType.LOG_TX (auto_text s) tmv

def logic_send_auto_once (s : SignalPanelState) (tmv : Tm) : SignalPanelState :=
  let s1 := { s with isTransmitting := 1 }
  logic_add_log s1 LogType.LOG_TX (auto_text s1) tmv

def logic_send_auto_rx (s : SignalPanelState) (tmv : Tm) : SignalPanelState :=
  { logic_add_log s LogType.LOG_RX (cstr "CAN ID: 0x123 | Data: [0x01, 0x02, 0x03]") tmv with
    isTransmitting := 0 }

def logic_start_repeating_manual (s : SignalPanelState) (tmv : Tm) : SignalPanelState :=
  let s1 := { s with isTransmitting := 1, isRepeating := 1 }
  logic_add_log s1 LogType.LOG_TX (manual_text s1) tmv

def logic_repeat_manual_tick (s : SignalPanelState) (tmv : Tm) : SignalPanelState :=
  logic_add_log s LogType.LOG_TX (manual_text s) tmv

def logic_send_manual_once (s : SignalPanelState) (tmv : Tm) : SignalPanelState :=
  let s1 := { s with isTransmitting := 1 }
  logic_add_log s1 LogType.LOG_TX (manual_text s1) tmv

def logic_send_manual_rx (s : SignalPanelState) (tmv : Tm) : SignalPanelState :=
  { logic_add_log s LogType.LOG_RX (cstr "ACK: OK") tmv with isTransmitting := 0 }

def logic_stop (s : SignalPanelState) (tmv : Tm) : SignalPanelState :=
  let s1 := { s with isTransmitting := 0, isRepeating := 0 }
  logic_add_log s1 LogType.LOG_TX (cstr "停止发送") tmv

/-! ### Sequences of calls -/

/-- One call `logic_add_log(s, type, msg)` together with the local time it reads. -/
structure AddLogCall where
  type : LogType
  msg : Bytes
  tmv : Tm
deriving DecidableEq, Repr

/-- Consecutive `logic_add_log` calls, first call first. -/
def logic_add_logs (s : SignalPanelState) (calls : List AddLogCall) : SignalPanelState :=
  calls.foldl (fun st c => logic_add_log st c.type c.msg c.tmv) s

/-- The `logic_*` operations of `logic.h` that take the state. -/
inductive LogicOp where
  | add_log (type : LogType) (msg : Bytes) (tmv : Tm)
  | set_scene (scene : Bytes) (tmv : Tm)
  | set_category (category : Bytes)
  | set_function (func : Bytes)
  | toggle_connected
  | clear_logs
  | start_repeating_auto (tmv : Tm)
  | repeat_auto_tick (tmv : Tm)
  | send_auto_once (tmv : Tm)
  | send_auto_rx (tmv : Tm)
  | start_repeating_manual (tmv : Tm)
  | repeat_manual_tick (tmv : Tm)
  | send_manual_once (tmv : Tm)
  | send_manual_rx (tmv : Tm)
  | stop (tmv : Tm)

/-- Run one operation. -/
def LogicOp.run (s : SignalPanelState) : LogicOp → SignalPanelState
  | .add_log type msg tmv => logic_add_log s type msg tmv
  | .set_scene scene tmv => logic_set_scene s scene tmv
  | .set_category category => logic_set_category s category
  | .set_function func => logic_set_function s func
  | .toggle_connected => logic_toggle_connected s
  | .clear_logs => logic_clear_logs s
  | .start_repeating_auto tmv => logic_start_repeating_auto s tmv
  | .repeat_auto_tick tmv => logic_repeat_auto_tick s tmv
  | .send_auto_once tmv => logic_send_auto_once s tmv
  | .send_auto_rx tmv => logic_send_auto_rx s tmv
  | .start_repeating_manual tmv => logic_start_repeating_manual s tmv
  | .repeat_manual_tick tmv => logic_repeat_manual_tick s tmv
  | .send_manual_once tmv => logic_send_manual_once s tmv
  | .send_manual_rx tmv => logic_send_manual_rx s tmv
  | .stop tmv => logic_stop s tmv

/-- Run a sequence of operations from `logic_init`, first operation first. -/
def run_ops (ops : List LogicOp) : SignalPanelState :=
  ops.foldl LogicOp.run logic_init

/-! ## The LVGL timer facility

`lv_timer_create` and `lv_timer_delete` belong to the LVGL library, which the panel calls.
The model keeps the list of live timers; a handle stands for the address of a timer.
`lv_timer_create` always succeeds and returns `next_handle`, the block the allocator hands out
next, which then advances by one: left alone, handles are never issued twice.
`Panel.reissue` sets `next_handle` to a handle of the caller's choice, which is what a heap
that hands out a freed block again does. `lv_timer_delete` removes the live timer that has the
handle. In C, `lv_timer_delete` on a handle whose timer is already deleted is undefined; the
model leaves the list as it is there, and `dangling` tells when a handle field is in that
condition. -/

/-- The three callbacks the panel passes to `lv_timer_create`. -/
inductive TimerCb where
  | repeat_tick_cb
  | rx_auto_cb
  | rx_manual_cb
deriving DecidableEq, Repr

structure lv_timer_t where
  handle : Nat
  timer_cb : TimerCb
  period : Nat
deriving DecidableEq, Repr

/-! ## ui_signal_panel.h, ui_signal_panel.c -/

/-- The fields of `SignalPanelUI` the handlers compute with: the state and the two timer
handles (`none` is `NULL`). The widget pointers are fixed by `signal_panel_create`. -/
structure SignalPanelUI where
  state : SignalPanelState
  timer_repeat : Option Nat
  timer_rx_delay : Option Nat

/-- What the handlers of the panel read and write: the `SignalPanelUI`, the live LVGL timers,
and of the widget tree the one bit the handlers steer transmission with, `LV_STATE_DISABLED`
of `ui->transmit_btn`. The rest of the widget tree (log list, dropdown options, hidden flags)
is write-only for the handlers and is left out. -/
structure Panel where
  ui : SignalPanelUI
  timers : List lv_timer_t
  next_handle : Nat
  transmit_btn_disabled : Bool

/-- Conversion of an `int` argument to the `uint32_t period` parameter. -/
def to_uint32 (x : Int) : Nat := (x % 4294967296).toNat

/-- The world after `lv_timer_create(cb, period, ui)`; the handle returned is
`w.next_handle`. -/
def lv_timer_create (w : Panel) (cb : TimerCb) (period : Nat) : Panel :=
  { w with
    timers := w.timers ++ [{ handle := w.next_handle, timer_cb := cb, period := period }]
    next_handle := w.next_handle + 1 }

def lv_timer_delete (w : Panel) (t : Nat) : Panel :=
  { w with timers := w.timers.filter (fun x => x.handle ≠ t) }

/-- The world in which the next `lv_timer_create` returns the handle `h`: the allocator hands
out the block at `h`. For a C program this is possible exactly when no live timer has the
handle `h`, which includes every handle whose timer was deleted. -/
def Panel.reissue (w : Panel) (h : Nat) : Panel :=
  { w with next_handle := h }

/-- The value of `disabled` that `update_transmit_button_state` computes. -/
def transmit_disabled (s : SignalPanelState) : Bool :=
  (s.isTransmitting ≠ 0 || s.isRepeating ≠ 0 || s.isConnected = 0) ||
    (s.viewMode = ViewMode.VIEW_MANUAL && (s.manualId = [] || s.manualData = []))

def update_transmit_button_state (w : Panel) : Panel :=
  { w with transmit_btn_disabled := transmit_disabled w.ui.state }

/-- Replace the state of the panel. -/
def Panel.set_state (w : Panel) (s : SignalPanelState) : Panel :=
  { w with ui := { w.ui with state := s } }

def rx_auto_cb (w : Panel) (t : Nat) (tmv : Tm) : Panel :=
  lv_timer_delete (w.set_state (logic_send_auto_rx w.ui.state tmv)) t

def rx_manual_cb (w : Panel) (t : Nat) (tmv : Tm) : Panel :=
  lv_timer_delete (w.set_state (logic_send_manual_rx w.ui.state tmv)) t

def schedule_rx_delay (w : Panel) (ms : Int) (is_manual : Bool) : Panel :=
  let w1 : Panel :=
    match w.ui.timer_rx_delay with
    | some h => { lv_timer_delete w h with ui := { w.ui with timer_rx_delay := none } }
    | none => w
  let w2 := lv_timer_create w1
    (if is_manual then TimerCb.rx_manual_cb else TimerCb.rx_auto_cb) (to_uint32 ms)
  { w2 with ui := { w2.ui with timer_rx_delay := some w1.next_handle } }

def repeat_tick_cb (w : Panel) (tmv : Tm) : Panel :=
  if w.ui.state.viewMode = ViewMode.VIEW_AUTO then
    schedule_rx_delay (w.set_state (logic_repeat_auto_tick w.ui.state tmv)) 500 false
  else
    schedule_rx_delay (w.set_state (logic_repeat_manual_tick w.ui.state tmv)) 500 true

def on_connect_sw (w : Panel) : Panel :=
  update_transmit_button_state (w.set_state (logic_toggle_connected w.ui.state))

/-- Handler of a scene button; `scene` is the text of the label of the clicked button. -/
def on_scene_btn (w : Panel) (scene : Bytes) (tmv : Tm) : Panel :=
  w.set_state (logic_set_scene w.ui.state scene tmv)

/-- Handler of the category dropdown; `sel` is the selected option, which
`lv_dropdown_get_selected_str` copies into `buf[64]`. -/
def on_category_changed (w : Panel) (sel : Bytes) : Panel :=
  update_transmit_button_state (w.set_state (logic_set_category w.ui.state (snprintf_s 64 sel)))

/-- Handler of the function dropdown; `sel` as in `on_category_changed`. -/
def on_function_changed (w : Panel) (sel : Bytes) : Panel :=
  update_transmit_button_state (w.set_state (logic_set_function w.ui.state (snprintf_s 64 sel)))

/-- Handler of the id text area; `txt` is the text of the text area. -/
def on_manual_id_changed (w : Panel) (txt : Bytes) : Panel :=
  update_transmit_button_state
    (w.set_state { w.ui.state with manualId := snprintf_s 32 txt })

def on_manual_data_changed (w : Panel) (txt : Bytes) : Panel :=
  update_transmit_button_state
    (w.set_state { w.ui.state with manualData := snprintf_s 160 txt })

/-- Handler of the repeat switch; `checked` is `LV_STATE_CHECKED` of the switch. -/
def on_manual_repeat_sw (w : Panel) (checked : Bool) : Panel :=
  w.set_state { w.ui.state with manualRepeat := if checked then 1 else 0 }

/-- White space as `isspace` of the C locale sees it. -/
def is_space (b : Nat) : Bool := b = 32 || (9 ≤ b && b ≤ 13)

/-- The digits loop of `atoi`. -/
def atoi_digits : Bytes → Int → Int
  | [], acc => acc
  | b :: rest, acc =>
    if 48 ≤ b ∧ b ≤ 57 then atoi_digits rest (acc * 10 + ((b : Int) - 48)) else acc

/-- The C library's `atoi`: white space, an optional sign, decimal digits. A value outside
`int` is undefined in C and is wrapped here. -/
def atoi (txt : Bytes) : Int :=
  match txt.dropWhile is_space with
  | 45 :: r => wrap_int (-(atoi_digits r 0))
  | 43 :: r => wrap_int (atoi_digits r 0)
  | t => wrap_int (atoi_digits t 0)

def on_manual_interval_changed (w : Panel) (txt : Bytes) : Panel :=
  w.set_state { w.ui.state with manualInterval := if atoi txt < 100 then 100 else atoi txt }

def goto_auto (w : Panel) : Panel :=
  update_transmit_button_state (w.set_state { w.ui.state with viewMode := ViewMode.VIEW_AUTO })

def goto_manual (w : Panel) : Panel :=
  update_transmit_button_state
    (w.set_state { w.ui.state with viewMode := ViewMode.VIEW_MANUAL })

/-- The lines `if(ui->timer_repeat) lv_timer_delete(ui->timer_repeat);
t = lv_timer_create(repeat_tick_cb, period, ui); ui->timer_repeat = t;` of `on_transmit`. -/
def arm_repeat (w : Panel) (period : Nat) : Panel :=
  let w1 : Panel :=
    match w.ui.timer_repeat with
    | some h => lv_timer_delete w h
    | none => w
  let w2 := lv_timer_create w1 TimerCb.repeat_tick_cb period
  { w2 with ui := { w2.ui with timer_repeat := some w1.next_handle } }

def on_transmit (w : Panel) (tmv : Tm) : Panel :=
  if w.ui.state.viewMode = ViewMode.VIEW_AUTO then
    if logic_get_repeat_interval_for_function w.ui.state.selectedFunction > 0 then
      update_transmit_button_state
        (schedule_rx_delay
          (arm_repeat (w.set_state (logic_start_repeating_auto w.ui.state tmv))
            (to_uint32 (logic_get_repeat_interval_for_function w.ui.state.selectedFunction)))
          500 false)
    else
      update_transmit_button_state
        (schedule_rx_delay (w.set_state (logic_send_auto_once w.ui.state tmv)) 1000 false)
  else
    if w.ui.state.manualRepeat ≠ 0 then
      update_transmit_button_state
        (schedule_rx_delay
          (arm_repeat (w.set_state (logic_start_repeating_manual w.ui.state tmv))
            (to_uint32 (logic_start_repeating_manual w.ui.state tmv).manualInterval))
          500 true)
    else
      update_transmit_button_state
        (schedule_rx_delay (w.set_state (logic_send_manual_once w.ui.state tmv)) 1000 true)

def on_stop (w : Panel) (tmv : Tm) : Panel :=
  let w1 : Panel :=
    match w.ui.timer_repeat with
    | some h => { lv_timer_delete w h with ui := { w.ui with timer_repeat := none } }
    | none => w
  update_transmit_button_state (w1.set_state (logic_stop w1.ui.state tmv))

def on_clear (w : Panel) : Panel :=
  w.set_state (logic_clear_logs w.ui.state)

/-- The part of `signal_panel_create` that touches the modelled fields: `logic_init` at the
start and `update_transmit_button_state` at the end. It stores nothing in `timer_repeat` and
`timer_rx_delay`: they keep what the caller's `SignalPanelUI` held. -/
def signal_panel_create (w : Panel) : Panel :=
  update_transmit_button_state (w.set_state logic_init)

/-- A timer of `lv_timer_handler` comes due: the callback of the live timer with handle `t`
runs, at local time `tmv`. Nothing happens when no live timer has that handle. -/
def lv_timer_fire (w : Panel) (t : Nat) (tmv : Tm) : Panel :=
  match w.timers.find? (fun x => x.handle = t) with
  | none => w
  | some x =>
    match x.timer_cb with
    | TimerCb.repeat_tick_cb => repeat_tick_cb w tmv
    | TimerCb.rx_auto_cb => rx_auto_cb w t tmv
    | TimerCb.rx_manual_cb => rx_manual_cb w t tmv

/-- What can happen to the panel after `signal_panel_create`: an event of a widget reaches its
handler, or a timer comes due. -/
inductive PanelEvent where
  | connect_sw
  | scene_btn (scene : Bytes) (tmv : Tm)
  | category_changed (sel : Bytes)
  | function_changed (sel : Bytes)
  | manual_id_changed (txt : Bytes)
  | manual_data_changed (txt : Bytes)
  | manual_repeat_sw (checked : Bool)
  | manual_interval_changed (txt : Bytes)
  | goto_auto
  | goto_manual
  | transmit (tmv : Tm)
  | stop (tmv : Tm)
  | clear
  | timer_fire (t : Nat) (tmv : Tm)

def PanelEvent.run (w : Panel) : PanelEvent → Panel
  | .connect_sw => on_connect_sw w
  | .scene_btn scene tmv => on_scene_btn w scene tmv
  | .category_changed sel => on_category_changed w sel
  | .function_changed sel => on_function_changed w sel
  | .manual_id_changed txt => on_manual_id_changed w txt
  | .manual_data_changed txt => on_manual_data_changed w txt
  | .manual_repeat_sw checked => on_manual_repeat_sw w checked
  | .manual_interval_changed txt => on_manual_interval_changed w txt
  | .goto_auto => TransmitHMI.goto_auto w
  | .goto_manual => TransmitHMI.goto_manual w
  | .transmit tmv => on_transmit w tmv
  | .stop tmv => on_stop w tmv
  | .clear => on_clear w
  | .timer_fire t tmv => lv_timer_fire w t tmv

/-- The panel after `signal_panel_create` on the world `w0` and then the events `evs`, first
event first. -/
def run_panel (w0 : Panel) (evs : List PanelEvent) : Panel :=
  evs.foldl PanelEvent.run (signal_panel_create w0)

/-! ## lvgl_ui: ui_state.h, ui_config.c, ui_binding.c, ui_footer.c -/

inductive ui_view_mode_t where
  | VIEW_MODE_AUTO
  | VIEW_MODE_MANUAL
deriving DecidableEq, Repr

/-- The global `g_ui_state`. `selected_category` is the numeric value of the `ui_category_t`;
`selected_function` is a `uint8_t`, `manual_interval` a `uint32_t`, `log_count` a
`uint16_t`. -/
structure ui_state_t where
  is_connected : Bool
  is_transmitting : Bool
  is_repeating : Bool
  selected_scene : Bytes
  selected_category : Nat
  selected_function : Nat
  view_mode : ui_view_mode_t
  manual_id : Bytes
  manual_data : Bytes
  manual_repeat : Bool
  manual_interval : Nat
  log_count : Nat
deriving DecidableEq, Repr

def ui_state_set_transmission (g : ui_state_t) (transmitting repeating : Bool) : ui_state_t :=
  { g with is_transmitting := transmitting, is_repeating := repeating }

structure repeating_function_config_t where
  category : Nat
  function : Nat
  interval : Nat
deriving DecidableEq, Repr

def REPEATING_FUNCTIONS : List repeating_function_config_t :=
  [ { category := 1, function := 2, interval := 2000 },
    { category := 2, function := 1, interval := 3000 },
    { category := 0, function := 1, interval := 1500 } ]

/-- The loop of `ui_config_is_repeating_function` over the entries still to visit. -/
def is_repeating_loop (category function : Nat) (interval : Option Nat) :
    List repeating_function_config_t → Bool × Option Nat
  | [] => (false, interval)
  | e :: rest =>
    if e.category = category ∧ e.function = function then
      (true, interval.map (fun _ => e.interval))
    else is_repeating_loop category function interval rest

/-- `ui_config_is_repeating_function(category, function, interval)`. The argument `interval`
is what the pointer refers to (`none` for a `NULL` pointer); the result is the return value
and what the pointer refers to afterwards. -/
def ui_config_is_repeating_function (category function : Nat) (interval : Option Nat) :
    Bool × Option Nat :=
  is_repeating_loop category function interval REPEATING_FUNCTIONS

/-- The callbacks registered in `g_callbacks` that the footer triggers (`none` is `NULL`).
A callback is code of the backend; of the UI it can reach `g_ui_state` only, so it is a
function on `ui_state_t`. -/
structure ui_callbacks_t where
  on_transmit_auto : Option (Bytes → Nat → Nat → Bool → Nat → ui_state_t → ui_state_t)
  on_transmit_manual : Option (Bytes → Bytes → Bool → Nat → ui_state_t → ui_state_t)
  on_stop : Option (ui_state_t → ui_state_t)

def ui_binding_trigger_transmit_auto (cbs : ui_callbacks_t) (scene : Bytes)
    (category function : Nat) (repeating : Bool) (interval : Nat) (g : ui_state_t) :
    ui_state_t :=
  match cbs.on_transmit_auto with
  | some f => f scene category function repeating interval g
  | none => g

def ui_binding_trigger_transmit_manual (cbs : ui_callbacks_t) (can_id data : Bytes)
    (repeating : Bool) (interval : Nat) (g : ui_state_t) : ui_state_t :=
  match cbs.on_transmit_manual with
  | some f => f can_id data repeating interval g
  | none => g

def ui_binding_trigger_stop (cbs : ui_callbacks_t) (g : ui_state_t) : ui_state_t :=
  match cbs.on_stop with
  | some f => f g
  | none => g

/-- The TRANSMIT button callback of `ui_footer.c`, as a function on `g_ui_state`
(`ui_footer_update_status` only restyles widgets). The category is passed as `uint8_t`. -/
def transmit_btn_cb (cbs : ui_callbacks_t) (g : ui_state_t) : ui_state_t :=
  if !g.is_connected then g
  else if g.view_mode = ui_view_mode_t.VIEW_MODE_AUTO then
    let r := ui_config_is_repeating_function (g.selected_category % 256) g.selected_function
      (some 0)
    let g1 := ui_binding_trigger_transmit_auto cbs g.selected_scene (g.selected_category % 256)
      g.selected_function r.1 (r.2.getD 0) g
    ui_state_set_transmission g1 true r.1
  else if g.manual_id = [] ∨ g.manual_data = [] then g
  else
    let g1 := ui_binding_trigger_transmit_manual cbs g.manual_id g.manual_data g.manual_repeat
      g.manual_interval g
    ui_state_set_transmission g1 true g1.manual_repeat

/-- The STOP button callback of `ui_footer.c`. -/
def stop_btn_cb (cbs : ui_callbacks_t) (g : ui_state_t) : ui_state_t :=
  ui_state_set_transmission (ui_binding_trigger_stop cbs g) false false

/-! ### ui_state.c: initialisation and the selection setters -/

def ui_state_init : ui_state_t :=
  { is_connected := false
    is_transmitting := false
    is_repeating := false
    selected_scene := cstr "B"
    selected_category := 0
    selected_function := 0
    view_mode := ui_view_mode_t.VIEW_MODE_AUTO
    manual_id := []
    manual_data := []
    manual_repeat := false
    manual_interval := 1000
    log_count := 0 }

/-- The enumerator `CATEGORY_COUNT` of `ui_category_t`. -/
def CATEGORY_COUNT : Nat := 3

def ui_state_set_category (g : ui_state_t) (category : Nat) : ui_state_t :=
  if category < CATEGORY_COUNT then
    { g with selected_category := category, selected_function := 0 }
  else g

/-- `ui_state_set_function`; the argument is converted to the `uint8_t` parameter. -/
def ui_state_set_function (g : ui_state_t) (function_index : Nat) : ui_state_t :=
  { g with selected_function := function_index % 256 }

/-! ### ui_config.c: the function tables -/

def UI_FUNCTIONS_DISPLAY : List Bytes :=
  [cstr "启动发动机", cstr "油门控制", cstr "刹车控制"]

def UI_FUNCTIONS_DISPLAY_COUNT : Nat := UI_FUNCTIONS_DISPLAY.length

def UI_FUNCTIONS_SOUND : List Bytes :=
  [cstr "开启车灯", cstr "解锁车门", cstr "调节座椅"]

def UI_FUNCTIONS_SOUND_COUNT : Nat := UI_FUNCTIONS_SOUND.length

def UI_FUNCTIONS_INSPECTION : List Bytes :=
  [cstr "激活ABS", cstr "气囊检测", cstr "胎压监测"]

def UI_FUNCTIONS_INSPECTION_COUNT : Nat := UI_FUNCTIONS_INSPECTION.length

def ui_config_get_function_name (category function : Nat) : Bytes :=
  match category with
  | 0 => if function < UI_FUNCTIONS_DISPLAY_COUNT then UI_FUNCTIONS_DISPLAY.getD function []
    else []
  | 1 => if function < UI_FUNCTIONS_SOUND_COUNT then UI_FUNCTIONS_SOUND.getD function []
    else []
  | 2 => if function < UI_FUNCTIONS_INSPECTION_COUNT then
      UI_FUNCTIONS_INSPECTION.getD function []
    else []
  | _ => []

def ui_config_get_function_count (category : Nat) : Nat :=
  match category with
  | 0 => UI_FUNCTIONS_DISPLAY_COUNT
  | 1 => UI_FUNCTIONS_SOUND_COUNT
  | 2 => UI_FUNCTIONS_INSPECTION_COUNT
  | _ => 0

/-! ### Sequences of selection and buffer operations -/

/-- The function names the panel offers for a category: the options `on_category_changed`
puts into the function dropdown, which are the entries of the table of that category in
`logic.c`. -/
def function_names : Fin 3 → Fin 3 → Bytes
  | 0 => display_funcs
  | 1 => sound_funcs
  | 2 => inspection_funcs

/-- An operation as the panel's dropdowns can cause it: `logic_set_category` with one of the
three category names, `logic_set_function` with a function name of the category selected at
that time. The other operations are not restricted. -/
def LogicOp.offered (s : SignalPanelState) : LogicOp → Prop
  | .set_category category => ∃ c : Fin 3, category = categories c
  | .set_function func =>
    ∃ c i : Fin 3, s.selectedCategory = categories c ∧ func = function_names c i
  | _ => True

/-- Every operation of the sequence is offered in the state it is run in. -/
def offered_run : SignalPanelState → List LogicOp → Prop
  | _, [] => True
  | s, op :: rest => op.offered s ∧ offered_run (op.run s) rest

/-- The two selection setters of `ui_state.c`. -/
inductive UiSelectOp where
  | set_category (category : Nat)
  | set_function (function_index : Nat)
deriving DecidableEq, Repr

def UiSelectOp.run (g : ui_state_t) : UiSelectOp → ui_state_t
  | .set_category category => ui_state_set_category g category
  | .set_function function_index => ui_state_set_function g function_index

/-- A call as the dropdowns of `ui_controls.c` can cause it: `ui_state_set_function` with an
index below the function count of the category selected at that time. -/
def UiSelectOp.offered (g : ui_state_t) : UiSelectOp → Prop
  | .set_category _ => True
  | .set_function function_index =>
    function_index < ui_config_get_function_count g.selected_category

def ui_offered_run : ui_state_t → List UiSelectOp → Prop
  | _, [] => True
  | g, op :: rest => op.offered g ∧ ui_offered_run (op.run g) rest

def run_ui_select_ops (ops : List UiSelectOp) : ui_state_t :=
  ops.foldl UiSelectOp.run ui_state_init

/-- A call of `logic_add_log` or of `logic_clear_logs`. -/
inductive BufferOp where
  | add (c : AddLogCall)
  | clear
deriving DecidableEq, Repr

def BufferOp.run (s : SignalPanelState) : BufferOp → SignalPanelState
  | .add c => logic_add_log s c.type c.msg c.tmv
  | .clear => logic_clear_logs s

/-- The state after `logic_init` and the calls `ops`, first call first. -/
def run_buffer_ops (ops : List BufferOp) : SignalPanelState :=
  ops.foldl BufferOp.run logic_init

/-- The number of `logic_add_log` calls in a sequence. -/
def count_adds : List BufferOp → Nat
  | [] => 0
  | .add _ :: rest => count_adds rest + 1
  | .clear :: rest => count_adds rest

/-! ### refresh_logs (ui_signal_panel.c) -/

/-- The read `ui->state.logs[i]`; `none` when `i` lies outside the array. -/
def log_at (s : SignalPanelState) (i : Nat) : Option LogMessage :=
  if h : i < 256 then some (s.logs ⟨i, h⟩) else none

/-- The entries the loop `for(int i = 0; i < n; i++)` of `refresh_logs` reads, in the order
it reads them. -/
def read_logs (s : SignalPanelState) : Nat → List LogMessage
  | 0 => []
  | n + 1 => read_logs s n ++ (log_at s n).toList

/-- The entries `refresh_logs` iterates: positions `0 .. log_count - 1`. -/
def log_entries (s : SignalPanelState) : List LogMessage :=
  read_logs s s.log_count.toNat

/-- The text `snprintf(line, 256, "%s %s %s", m->timestamp, t, m->message)` of one entry. -/
def log_line (m : LogMessage) : Bytes :=
  snprintf_s 256 (m.timestamp ++ cstr " " ++
    (if m.type = LogType.LOG_TX then cstr "[TX]" else cstr "[RX]") ++ cstr " " ++ m.message)

/-- `refresh_logs`: the texts of the log list widget after the call, as a function of the
state the call reads. The call writes to the widget only. -/
def refresh_logs (s : SignalPanelState) : List Bytes :=
  if s.isConnected = 0 then [cstr "未连接"]
  else if s.log_count = 0 then [cstr "已连接 - 等待发送..."]
  else (log_entries s).map log_line

/-- Whether the operation, run in state `s`, calls `logic_add_log`. -/
def LogicOp.appends (s : SignalPanelState) : LogicOp → Bool
  | .set_scene _ _ => s.isConnected ≠ 0
  | .set_category _ => false
  | .set_function _ => false
  | .toggle_connected => false
  | .clear_logs => false
  | _ => true

/-- The number of `logic_add_log` calls made by a sequence of operations run from `s`. -/
def count_appends : SignalPanelState → List LogicOp → Nat
  | _, [] => 0
  | s, op :: rest => (if op.appends s then 1 else 0) + count_appends (op.run s) rest

/-! ### ui_state.c and ui_manual_input.c: view mode and manual repeat interval -/

def ui_state_set_view_mode (g : ui_state_t) (mode : ui_view_mode_t) : ui_state_t :=
  { g with view_mode := mode }

/-- `ui_state_set_manual_repeat(repeat, interval)`; `interval` is a `uint32_t`. -/
def ui_state_set_manual_repeat (g : ui_state_t) (repeating : Bool) (interval : Nat) :
    ui_state_t :=
  { g with manual_repeat := repeating, manual_interval := interval }

/-- The repeat switch callback of `ui_manual_input.c`; `is_checked` is `LV_STATE_CHECKED` of
the switch. -/
def repeat_switch_cb (g : ui_state_t) (is_checked : Bool) : ui_state_t :=
  ui_state_set_manual_repeat g is_checked g.manual_interval

/-- The interval text area callback of `ui_manual_input.c`; `text` is the text of the text
area. `uint32_t interval = atoi(text)` converts the `int` to `uint32_t`. -/
def interval_textarea_cb (g : ui_state_t) (text : Bytes) : ui_state_t :=
  ui_state_set_manual_repeat g g.manual_repeat
    (if to_uint32 (atoi text) < 100 then 100 else to_uint32 (atoi text))

/-- The two callbacks of `ui_manual_input.c` that call `ui_state_set_manual_repeat`. -/
inductive UiIntervalOp where
  | repeat_switch (is_checked : Bool)
  | interval_textarea (text : Bytes)
deriving DecidableEq, Repr

def UiIntervalOp.run (g : ui_state_t) : UiIntervalOp → ui_state_t
  | .repeat_switch is_checked => repeat_switch_cb g is_checked
  | .interval_textarea text => interval_textarea_cb g text

def run_ui_interval_ops (ops : List UiIntervalOp) : ui_state_t :=
  ops.foldl UiIntervalOp.run ui_state_init

/-! ## Predicates used in the statements -/

/-- The relation "`s1` is `s` with exactly one entry of kind `type` and stored message `msg`
appended": `log_count` becomes `log_slot s + 1`, `next_log_id` advances by one, every cell of
`logs` other than the one at `log_slot s` is unchanged, and (when `log_count` is not negative,
so that the slot lies in the array) the cell at `log_slot s` holds the new entry, with id
`s.next_log_id`. -/
def Appends (s s1 : SignalPanelState) (type : LogType) (msg : Bytes) (tmv : Tm) : Prop :=
  s1.log_count = log_slot s + 1 ∧
  s1.next_log_id = wrap_int (s.next_log_id + 1) ∧
  (∀ i : Fin 256, (i.val : Int) ≠ log_slot s → s1.logs i = s.logs i) ∧
  (0 ≤ s.log_count → ∃ i : Fin 256, (i.val : Int) = log_slot s ∧ s1.logs i =
    { id := s.next_log_id, type := type, timestamp := make_timestamp tmv, message := msg })

/-- The live timers after cancelling the timer a handle field refers to: the statement
`if(h) lv_timer_delete(h)`. -/
def cancel_timer (timers : List lv_timer_t) (h : Option Nat) : List lv_timer_t :=
  match h with
  | some t => timers.filter (fun x => x.handle ≠ t)
  | none => timers

/-- The transmit button is disabled whenever `update_transmit_button_state` would disable
it. -/
def GateInv (w : Panel) : Prop :=
  transmit_disabled w.ui.state = true → w.transmit_btn_disabled = true

/-- The selected function is a function of the selected category (name-based engine). -/
def ValidSelection (s : SignalPanelState) : Prop :=
  ∃ c i : Fin 3, s.selectedCategory = categories c ∧ s.selectedFunction = function_names c i

/-- The selected function index is valid for the selected category (index-based UI state). -/
def UiValidSelection (g : ui_state_t) : Prop :=
  g.selected_function < ui_config_get_function_count g.selected_category

/-- Bookkeeping of the log: `next_log_id` is `n`, `log_count` lies in `0 .. 256` and is at
most `n`, and the entry at position `i < log_count` has id `n - log_count + i`. -/
def IdsInv (s : SignalPanelState) (n : Nat) : Prop :=
  s.next_log_id = n ∧ 0 ≤ s.log_count ∧ s.log_count ≤ 256 ∧ s.log_count ≤ n ∧
  ∀ i : Fin 256, (i.val : Int) < s.log_count → (s.logs i).id = n - s.log_count + i.val

/-- Bookkeeping of both timers: live handles were issued earlier and are pairwise different,
a live `repeat_tick_cb` timer is the one `timer_repeat` refers to, and every other live timer
(an ack timer) is the one `timer_rx_delay` refers to. -/
def OneEach (timers : List lv_timer_t) (next : Nat) (rep rx : Option Nat) : Prop :=
  (∀ t ∈ timers, t.handle < next) ∧
  (timers.map (fun t => t.handle)).Nodup ∧
  (∀ t ∈ timers, t.timer_cb = TimerCb.repeat_tick_cb → rep = some t.handle) ∧
  (∀ t ∈ timers, t.timer_cb ≠ TimerCb.repeat_tick_cb → rx = some t.handle)

/-- `OneEach` on the fields of a panel. -/
def PanelOneEach (w : Panel) : Prop :=
  OneEach w.timers w.next_handle w.ui.timer_repeat w.ui.timer_rx_delay

/-- The handle field holds a handle that no live timer has: it dangles. -/
def dangling (timers : List lv_timer_t) (h : Option Nat) : Bool :=
  match h with
  | some t => timers.all (fun x => x.handle ≠ t)
  | none => false

/-- The timer handles are sound for the C program: each of the two handle fields is `NULL` or
the handle of a live timer, and the two handles the allocator issues next are those of no
live timer. -/
def LiveHandles (w : Panel) : Prop :=
  dangling w.timers w.ui.timer_repeat = false ∧
  dangling w.timers w.ui.timer_rx_delay = false ∧
  ∀ t ∈ w.timers, t.handle ≠ w.next_handle ∧ t.handle ≠ w.next_handle + 1

/-- A `SignalPanelUI` whose memory the caller zeroed, in an LVGL without timers: the world
`signal_panel_create` starts from in the examples. -/
def panel_zero : Panel :=
  { ui := { state := logic_init, timer_repeat := none, timer_rx_delay := none }
    timers := []
    next_handle := 0
    transmit_btn_disabled := false }

/-- Noon, as a local time for the examples. -/
def noon : Tm := { tm_hour := 12, tm_min := 0, tm_sec := 0 }

/-- The panel of the examples after these events: the connect switch, transmit of the default
one-shot function, its ack timer (handle 0) comes due and `rx_auto_cb` runs, the category
Sound and its repeating function "调节座椅" are selected. -/
def panel_after_ack : Panel :=
  run_panel panel_zero
    [PanelEvent.connect_sw, PanelEvent.transmit noon, PanelEvent.timer_fire 0 noon,
     PanelEvent.category_changed (cstr "声音 (Sound)"),
     PanelEvent.function_changed (cstr "调节座椅")]

/-! ## Lemmas on the log buffer -/

theorem wrap_int_add (a b : Int) : wrap_int (wrap_int a + b) = wrap_int (a + b) := by
  unfold wrap_int
  omega

theorem logic_add_logs_append (s : SignalPanelState) (xs ys : List AddLogCall) :
    logic_add_logs s (xs ++ ys) = logic_add_logs (logic_add_logs s xs) ys := by
  simp [logic_add_logs, List.foldl_append]

theorem logic_add_logs_cons (s : SignalPanelState) (c : AddLogCall) (cs : List AddLogCall) :
    logic_add_logs s (c :: cs) = logic_add_logs (logic_add_log s c.type c.msg c.tmv) cs := rfl

/-- While the buffer has room, every call adds one to `log_count`. -/
theorem logic_add_logs_log_count (calls : List AddLogCall) :
    ∀ s : SignalPanelState, 0 ≤ s.log_count → s.log_count + calls.length ≤ 256 →
      (logic_add_logs s calls).log_count = s.log_count + calls.length := by
  induction calls with
  | nil => intro s _ _; simp [logic_add_logs]
  | cons c cs ih =>
    intro s h0 h
    simp only [List.length_cons, Nat.cast_add, Nat.cast_one] at h
    have hslot : log_slot s = s.log_count := by
      unfold log_slot
      split
      · omega
      · rfl
    rw [logic_add_logs_cons, ih]
    · simp only [logic_add_log, hslot, List.length_cons, Nat.cast_add, Nat.cast_one]
      omega
    · simp only [logic_add_log, hslot]
      omega
    · simp only [logic_add_log, hslot]
      omega

/-- The id counter after a non-empty run of calls. -/
theorem logic_add_logs_next_log_id (calls : List AddLogCall) :
    ∀ (s : SignalPanelState) (c : AddLogCall),
      (logic_add_logs s (c :: calls)).next_log_id =
        wrap_int (s.next_log_id + (calls.length + 1 : Nat)) := by
  induction calls with
  | nil => intro s c; simp [logic_add_logs, logic_add_log]
  | cons d ds ih =>
    intro s c
    rw [logic_add_logs_cons, ih]
    simp only [logic_add_log, List.length_cons, Nat.cast_add, Nat.cast_one]
    rw [wrap_int_add]
    congr 1
    omega

/-- A list of 257 calls is 256 calls followed by one more. -/
theorem split_257 (calls : List AddLogCall) (h : calls.length = 257) :
    calls = calls.take 256 ++ [calls.get ⟨256, by omega⟩] := by
  have h1 : calls.drop 256 = [calls.get ⟨256, by omega⟩] := by
    rw [List.drop_eq_getElem_cons (by omega : 256 < calls.length),
      List.drop_eq_nil_of_le (by omega : calls.length ≤ 256 + 1)]
    rfl
  conv_lhs => rw [← List.take_append_drop 256 calls, h1]

/-- The state before the 257th of 257 calls on an empty log: the buffer is full. -/
theorem full_after_256 (s : SignalPanelState) (calls : List AddLogCall)
    (h0 : s.log_count = 0) (h : calls.length = 256) :
    (logic_add_logs s calls).log_count = 256 := by
  rw [logic_add_logs_log_count calls s (by omega) (by omega), h0, h]
  rfl

/-- On a full buffer `logic_add_log` starts again at position 0. -/
theorem logic_add_log_full (s : SignalPanelState) (type : LogType) (msg : Bytes) (tmv : Tm)
    (h : s.log_count = 256) :
    (logic_add_log s type msg tmv).log_count = 1 ∧
      (logic_add_log s type msg tmv).logs 0 = new_entry s type msg tmv := by
  have hslot : log_slot s = 0 := by simp [log_slot, h]
  simp [logic_add_log, hslot]

/-- After 257 calls on an empty log, `log_count` is 1. -/
theorem log_count_after_257 (s : SignalPanelState) (calls : List AddLogCall)
    (h0 : s.log_count = 0) (h : calls.length = 257) :
    (logic_add_logs s calls).log_count = 1 := by
  rw [split_257 calls h, logic_add_logs_append]
  have hfull := full_after_256 s (calls.take 256) h0 (by simp [h])
  exact (logic_add_log_full _ _ _ _ hfull).1

/-- Every `logic_*` operation keeps `log_count` within `0 .. 256`. -/
theorem LogicOp.run_log_count (s : SignalPanelState) (op : LogicOp)
    (h : 0 ≤ s.log_count ∧ s.log_count ≤ 256) :
    0 ≤ (op.run s).log_count ∧ (op.run s).log_count ≤ 256 := by
  have key : ∀ (t : SignalPanelState) (type : LogType) (msg : Bytes) (tmv : Tm),
      0 ≤ t.log_count ∧ t.log_count ≤ 256 →
      0 ≤ (logic_add_log t type msg tmv).log_count ∧
        (logic_add_log t type msg tmv).log_count ≤ 256 := by
    intro t type msg tmv ht
    simp only [logic_add_log, log_slot]
    split <;> omega
  cases op with
  | add_log type msg tmv => exact key s type msg tmv h
  | set_scene scene tmv =>
    simp only [LogicOp.run, logic_set_scene]
    split
    · exact key _ _ _ _ h
    · exact h
  | set_category category => exact h
  | set_function func => exact h
  | toggle_connected => exact h
  | clear_logs => simp [LogicOp.run, logic_clear_logs]
  | start_repeating_auto tmv => exact key _ _ _ _ h
  | repeat_auto_tick tmv => exact key _ _ _ _ h
  | send_auto_once tmv => exact key _ _ _ _ h
  | send_auto_rx tmv =>
    exact key s LogType.LOG_RX (cstr "CAN ID: 0x123 | Data: [0x01, 0x02, 0x03]") tmv h
  | start_repeating_manual tmv => exact key _ _ _ _ h
  | repeat_manual_tick tmv => exact key _ _ _ _ h
  | send_manual_once tmv => exact key _ _ _ _ h
  | send_manual_rx tmv => exact key s LogType.LOG_RX (cstr "ACK: OK") tmv h
  | stop tmv => exact key _ _ _ _ h

/-- An invariant of single operations holds after any sequence of them. -/
theorem foldl_invariant {σ ε : Type} (step : σ → ε → σ) (P : σ → Prop)
    (hstep : ∀ s e, P s → P (step s e)) (es : List ε) :
    ∀ s, P s → P (es.foldl step s) := by
  induction es with
  | nil => intro s hs; exact hs
  | cons e es ih => intro s hs; exact ih _ (hstep s e hs)

/-- The slot `logic_add_log` writes lies in the array when `log_count` is not negative. -/
theorem log_slot_in_array (s : SignalPanelState) (h : 0 ≤ s.log_count) :
    ∃ i : Fin 256, (i.val : Int) = log_slot s := by
  have h1 : 0 ≤ log_slot s ∧ log_slot s < 256 := by
    unfold log_slot
    split <;> omega
  exact ⟨⟨(log_slot s).toNat, by omega⟩, by simp only; omega⟩

/-- `logic_add_log` appends one entry, its message cut to 159 bytes. -/
theorem logic_add_log_appends (s : SignalPanelState) (type : LogType) (msg : Bytes) (tmv : Tm) :
    Appends s (logic_add_log s type msg tmv) type (msg.take 159) tmv := by
  refine ⟨rfl, rfl, ?_, ?_⟩
  · intro i hi
    simp [logic_add_log, hi]
  · intro h
    obtain ⟨i, hi⟩ := log_slot_in_array s h
    exact ⟨i, hi, by simp [logic_add_log, hi, new_entry, snprintf_s]⟩

/-- The three fixed messages of the engine fit the 160-byte field. -/
theorem fixed_messages_fit :
    (cstr "CAN ID: 0x123 | Data: [0x01, 0x02, 0x03]").take 159 =
      cstr "CAN ID: 0x123 | Data: [0x01, 0x02, 0x03]" ∧
    (cstr "ACK: OK").take 159 = cstr "ACK: OK" ∧
    (cstr "停止发送").take 159 = cstr "停止发送" := by
  decide

/-! ## Lemmas on the panel -/

theorem schedule_rx_delay_eq (w : Panel) (ms : Int) (is_manual : Bool) :
    schedule_rx_delay w ms is_manual =
      { ui := { state := w.ui.state, timer_repeat := w.ui.timer_repeat,
                timer_rx_delay := some w.next_handle }
        timers := cancel_timer w.timers w.ui.timer_rx_delay ++
          [{ handle := w.next_handle
             timer_cb := if is_manual then TimerCb.rx_manual_cb else TimerCb.rx_auto_cb
             period := to_uint32 ms }]
        next_handle := w.next_handle + 1
        transmit_btn_disabled := w.transmit_btn_disabled } := by
  rcases w with ⟨⟨st, rep, rx⟩, tl, n, b⟩
  cases rx <;> rfl

theorem arm_repeat_eq (w : Panel) (period : Nat) :
    arm_repeat w period =
      { ui := { state := w.ui.state, timer_repeat := some w.next_handle,
                timer_rx_delay := w.ui.timer_rx_delay }
        timers := cancel_timer w.timers w.ui.timer_repeat ++
          [{ handle := w.next_handle, timer_cb := TimerCb.repeat_tick_cb, period := period }]
        next_handle := w.next_handle + 1
        transmit_btn_disabled := w.transmit_btn_disabled } := by
  rcases w with ⟨⟨st, rep, rx⟩, tl, n, b⟩
  cases rep <;> rfl

theorem on_stop_eq (w : Panel) (tmv : Tm) :
    on_stop w tmv =
      { ui := { state := logic_stop w.ui.state tmv, timer_repeat := none,
                timer_rx_delay := w.ui.timer_rx_delay }
        timers := cancel_timer w.timers w.ui.timer_repeat
        next_handle := w.next_handle
        transmit_btn_disabled := transmit_disabled (logic_stop w.ui.state tmv) } := by
  rcases w with ⟨⟨st, rep, rx⟩, tl, n, b⟩
  cases rep <;> rfl

theorem mem_cancel_timer {timers : List lv_timer_t} {h : Option Nat} {t : lv_timer_t}
    (ht : t ∈ cancel_timer timers h) : t ∈ timers ∧ h ≠ some t.handle := by
  cases h with
  | none => exact ⟨ht, by simp⟩
  | some x =>
    simp only [cancel_timer, List.mem_filter, decide_eq_true_eq] at ht
    refine ⟨ht.1, ?_⟩
    intro hx
    exact ht.2 (Option.some.inj hx).symm

theorem transmit_disabled_clear_flag (s : SignalPanelState)
    (h : transmit_disabled { s with isTransmitting := 0 } = true) :
    transmit_disabled s = true := by
  simp only [transmit_disabled, Bool.or_eq_true, Bool.and_eq_true, decide_eq_true_eq,
    ne_eq, not_true_eq_false, decide_False, Bool.false_eq_true, false_or] at h ⊢
  tauto

theorem GateInv_step (w : Panel) (e : PanelEvent) (h : GateInv w) : GateInv (e.run w) := by
  cases e with
  | connect_sw => exact fun hd => hd
  | scene_btn scene tmv =>
    intro hd
    apply h
    simp only [PanelEvent.run, on_scene_btn, Panel.set_state, logic_set_scene] at hd
    split at hd
    · exact hd
    · exact hd
  | category_changed sel => exact fun hd => hd
  | function_changed sel => exact fun hd => hd
  | manual_id_changed txt => exact fun hd => hd
  | manual_data_changed txt => exact fun hd => hd
  | manual_repeat_sw checked => exact h
  | manual_interval_changed txt => exact h
  | goto_auto => exact fun hd => hd
  | goto_manual => exact fun hd => hd
  | transmit tmv =>
    simp only [PanelEvent.run, on_transmit]
    split <;> split <;> exact fun hd => hd
  | stop tmv =>
    simp only [PanelEvent.run, on_stop_eq]
    exact fun hd => hd
  | clear => exact h
  | timer_fire t tmv =>
    simp only [PanelEvent.run, lv_timer_fire]
    split
    · exact h
    · split
      · simp only [repeat_tick_cb]
        split <;> (rw [schedule_rx_delay_eq]; exact h)
      · intro hd
        apply h
        exact transmit_disabled_clear_flag _ hd
      · intro hd
        apply h
        exact transmit_disabled_clear_flag _ hd

/-- In every state of the panel the transmit button is disabled when the state rules out
transmitting. -/
theorem GateInv_run_panel (w0 : Panel) (evs : List PanelEvent) : GateInv (run_panel w0 evs) :=
  foldl_invariant PanelEvent.run GateInv (fun w e h => GateInv_step w e h) evs
    (signal_panel_create w0) (fun hd => hd)

theorem cancel_timer_append_keep (timers : List lv_timer_t) (h : Option Nat) (t : lv_timer_t)
    (hne : h ≠ some t.handle) : cancel_timer (timers ++ [t]) h = cancel_timer timers h ++ [t] := by
  cases h with
  | none => rfl
  | some x =>
    have hx : t.handle ≠ x := fun e => hne (by rw [e])
    simp [cancel_timer, List.filter_append, hx]

/-- The catalog intervals pass unchanged into the `uint32_t` period. -/
theorem to_uint32_repeat_interval (func : Bytes) :
    to_uint32 (logic_get_repeat_interval_for_function func) =
      (logic_get_repeat_interval_for_function func).toNat := by
  unfold logic_get_repeat_interval_for_function repeat_interval_for
  split
  · rfl
  · split
    · rfl
    · split <;> rfl

theorem to_uint32_of_range (x : Int) (h0 : 0 ≤ x) (h1 : x < 4294967296) :
    to_uint32 x = x.toNat := by
  unfold to_uint32
  rw [Int.emod_eq_of_lt h0 h1]

theorem auto_text_take (s : SignalPanelState) : (auto_text s).take 159 = auto_text s := by
  simp [auto_text, snprintf_s, List.take_take]

/-! ## The claims -/

/-- C1 (as the code has it). Starting from an empty log (`log_count = 0`, as after
`logic_init` or `logic_clear_logs`), up to 256 consecutive `logic_add_log` calls leave
`log_count` equal to the number of calls, and after 257 calls `log_count` is 1: the full
buffer restarts at position 0. -/
theorem C1_log_count_restarts_at_257 (s : SignalPanelState) (calls : List AddLogCall)
    (h0 : s.log_count = 0) :
    (calls.length ≤ 256 → (logic_add_logs s calls).log_count = calls.length) ∧
    (calls.length = 257 → (logic_add_logs s calls).log_count = 1) := by
  constructor
  · intro h
    rw [logic_add_logs_log_count calls s (by omega) (by omega), h0]
    simp
  · intro h
    exact log_count_after_257 s calls h0 h

/-- C1, witness: 256 and 257 calls after `logic_init`, and 257 calls after
`logic_clear_logs`. -/
theorem C1_log_count_restarts_at_257_witness :
    logic_init.log_count = 0 ∧
    (logic_add_logs logic_init
      (List.replicate 256 { type := LogType.LOG_TX, msg := cstr "x", tmv := noon })).log_count
        = 256 ∧
    (logic_add_logs (logic_clear_logs (logic_stop logic_init noon))
      (List.replicate 257 { type := LogType.LOG_RX, msg := cstr "x", tmv := noon })).log_count
        = 1 :=
  ⟨rfl,
   ((C1_log_count_restarts_at_257 logic_init
      (List.replicate 256 { type := LogType.LOG_TX, msg := cstr "x", tmv := noon }) rfl).1
      (le_of_eq (List.length_replicate _ _))).trans
      (congrArg Nat.cast (List.length_replicate 256 _)),
   (C1_log_count_restarts_at_257 (logic_clear_logs (logic_stop logic_init noon))
      (List.replicate 257 { type := LogType.LOG_RX, msg := cstr "x", tmv := noon }) rfl).2
      (List.length_replicate _ _)⟩

/-- C1, counterexample: after `logic_init` and 257 calls of `logic_add_log`, `log_count` is
not 256. -/
theorem C1_counterexample :
    (logic_add_logs logic_init
      (List.replicate 257 { type := LogType.LOG_TX, msg := cstr "x", tmv := noon })).log_count
        ≠ 256 := by
  rw [log_count_after_257 _ _ rfl (List.length_replicate _ _)]
  decide

/-- C2. Starting from an empty log, after 257 consecutive `logic_add_log` calls the entry at
position 0 is the one the 257th call stored: its kind, its text cut to 159 bytes, its time
stamp and its id, which is the counter after 256 increments. The first call had written its
entry, with id `s.next_log_id`, at the same position. -/
theorem C2_position_zero_holds_257th (s : SignalPanelState) (calls : List AddLogCall)
    (h0 : s.log_count = 0) (h : calls.length = 257) :
    (logic_add_logs s calls).logs 0 =
      { id := wrap_int (s.next_log_id + 256)
        type := (calls.get ⟨256, by omega⟩).type
        timestamp := make_timestamp (calls.get ⟨256, by omega⟩).tmv
        message := (calls.get ⟨256, by omega⟩).msg.take 159 } ∧
    (logic_add_logs s (calls.take 1)).logs 0 =
      { id := s.next_log_id
        type := (calls.get ⟨0, by omega⟩).type
        timestamp := make_timestamp (calls.get ⟨0, by omega⟩).tmv
        message := (calls.get ⟨0, by omega⟩).msg.take 159 } := by
  constructor
  · have hfull := full_after_256 s (calls.take 256) h0 (by simp [h])
    have hid : (logic_add_logs s (calls.take 256)).next_log_id =
        wrap_int (s.next_log_id + 256) := by
      obtain ⟨c, cs, hc⟩ : ∃ c cs, calls.take 256 = c :: cs := by
        cases hl : calls.take 256 with
        | nil =>
          have : (calls.take 256).length = 256 := by simp [h]
          simp [hl] at this
        | cons c cs => exact ⟨c, cs, rfl⟩
      have hlen : cs.length = 255 := by
        have : (calls.take 256).length = 256 := by simp [h]
        rw [hc] at this
        simpa using this
      rw [hc, logic_add_logs_next_log_id, hlen]
      rfl
    conv_lhs => rw [split_257 calls h, logic_add_logs_append]
    have := (logic_add_log_full (logic_add_logs s (calls.take 256))
      (calls.get ⟨256, by omega⟩).type (calls.get ⟨256, by omega⟩).msg
      (calls.get ⟨256, by omega⟩).tmv hfull).2
    simp only [logic_add_logs, List.foldl_cons, List.foldl_nil] at this ⊢
    rw [this, new_entry]
    simp only [logic_add_logs] at hid
    rw [hid]
    rfl
  · have h1 : calls.take 1 = [calls.get ⟨0, by omega⟩] := by
      cases calls with
      | nil => simp at h
      | cons c cs => simp
    have hslot : log_slot s = 0 := by simp [log_slot, h0]
    rw [h1]
    simp [logic_add_logs, logic_add_log, hslot, new_entry, snprintf_s]

/-- C2, witness: 257 calls after `logic_init`; the entry at position 0 has id 256. -/
theorem C2_position_zero_holds_257th_witness :
    ((logic_add_logs logic_init
      (List.replicate 257 { type := LogType.LOG_RX, msg := cstr "x", tmv := noon })).logs 0).id
        = 256 := by
  have h := (C2_position_zero_holds_257th logic_init
    (List.replicate 257 { type := LogType.LOG_RX, msg := cstr "x", tmv := noon }) rfl
    (List.length_replicate _ _)).1
  rw [h]
  rfl

/-- C3. In every state reached from `logic_init` by a sequence of `logic_*` operations,
`0 <= log_count <= 256`. -/
theorem C3_log_count_bounded (ops : List LogicOp) :
    0 ≤ (run_ops ops).log_count ∧ (run_ops ops).log_count ≤ 256 := by
  unfold run_ops
  exact foldl_invariant LogicOp.run (fun s => 0 ≤ s.log_count ∧ s.log_count ≤ 256)
    (fun s op hs => LogicOp.run_log_count s op hs) ops logic_init (by simp [logic_init])

/-- C4, the code at the failing input: after `logic_init`, `logic_start_repeating_auto` and
`logic_send_auto_rx` (the calls of `tests/test_logic.c`), `isRepeating` is 1 and
`isTransmitting` is 0; the same holds with the manual pair of operations. -/
theorem C4_repeating_without_transmitting :
    (run_ops [LogicOp.start_repeating_auto noon, LogicOp.send_auto_rx noon]).isRepeating = 1 ∧
    (run_ops [LogicOp.start_repeating_auto noon, LogicOp.send_auto_rx noon]).isTransmitting = 0 ∧
    (run_ops [LogicOp.start_repeating_manual noon, LogicOp.send_manual_rx noon]).isRepeating
      = 1 ∧
    (run_ops [LogicOp.start_repeating_manual noon, LogicOp.send_manual_rx noon]).isTransmitting
      = 0 :=
  ⟨rfl, rfl, rfl, rfl⟩

/-- C6 (as the code has it). `on_transmit` checks neither the connection nor the transmit
flags; the check is at the button. In every state of the panel, `isConnected = 0` or
`isTransmitting != 0` or `isRepeating != 0` implies that the transmit button is disabled.
In the second UI, `transmit_btn_cb` returns with `g_ui_state` unchanged, and without
calling a backend callback, when `is_connected` is false. -/
theorem C6_transmit_gated_at_button (w0 : Panel) (evs : List PanelEvent) :
    ((run_panel w0 evs).ui.state.isConnected = 0 ∨
      (run_panel w0 evs).ui.state.isTransmitting ≠ 0 ∨
      (run_panel w0 evs).ui.state.isRepeating ≠ 0 →
        (run_panel w0 evs).transmit_btn_disabled = true) ∧
    (∀ (cbs : ui_callbacks_t) (g : ui_state_t), g.is_connected = false →
      transmit_btn_cb cbs g = g) := by
  constructor
  · intro h
    apply GateInv_run_panel w0 evs
    simp only [transmit_disabled, Bool.or_eq_true, Bool.and_eq_true, decide_eq_true_eq]
    tauto
  · intro cbs g hg
    simp [transmit_btn_cb, hg]

/-- C6, witness: after connecting and a one-shot transmit the button is disabled. -/
theorem C6_transmit_gated_at_button_witness :
    (run_panel panel_zero [PanelEvent.connect_sw, PanelEvent.transmit noon]).ui.state.isTransmitting
      ≠ 0 ∧
    (run_panel panel_zero [PanelEvent.connect_sw, PanelEvent.transmit noon]).transmit_btn_disabled
      = true :=
  ⟨by decide,
   (C6_transmit_gated_at_button panel_zero [PanelEvent.connect_sw, PanelEvent.transmit noon]).1
     (Or.inr (Or.inl (by decide)))⟩

/-- C6, counterexample: `on_transmit` on the freshly created, disconnected panel appends an
entry, sets `isTransmitting` and schedules an ack timer. -/
theorem C6_counterexample :
    (run_panel panel_zero []).ui.state.isConnected = 0 ∧
    (run_panel panel_zero []).ui.state.log_count = 0 ∧
    (on_transmit (run_panel panel_zero []) noon).ui.state.log_count = 1 ∧
    (on_transmit (run_panel panel_zero []) noon).ui.state.next_log_id = 1 ∧
    (run_panel panel_zero []).ui.state.isTransmitting = 0 ∧
    (on_transmit (run_panel panel_zero []) noon).ui.state.isTransmitting = 1 ∧
    (run_panel panel_zero []).timers = [] ∧
    (on_transmit (run_panel panel_zero []) noon).timers
      = [{ handle := 0, timer_cb := TimerCb.rx_auto_cb, period := 1000 }] := by
  decide

/-- C7 (as the code has it). In the second UI, `transmit_btn_cb` in Manual mode with an empty
`manual_id` or `manual_data` returns with `g_ui_state` unchanged and without calling a
backend callback. `on_transmit` of the port panel has no such check; there, in every state of
the panel, Manual mode with an empty `manualId` or `manualData` implies that the transmit
button is disabled. -/
theorem C7_manual_empty_fields (w0 : Panel) (evs : List PanelEvent) :
    (∀ (cbs : ui_callbacks_t) (g : ui_state_t),
      g.view_mode = ui_view_mode_t.VIEW_MODE_MANUAL → (g.manual_id = [] ∨ g.manual_data = []) →
        transmit_btn_cb cbs g = g) ∧
    ((run_panel w0 evs).ui.state.viewMode = ViewMode.VIEW_MANUAL →
      ((run_panel w0 evs).ui.state.manualId = [] ∨
        (run_panel w0 evs).ui.state.manualData = []) →
        (run_panel w0 evs).transmit_btn_disabled = true) := by
  constructor
  · intro cbs g hv he
    unfold transmit_btn_cb
    split
    · rfl
    · simp [hv, he]
  · intro hv he
    apply GateInv_run_panel w0 evs
    simp only [transmit_disabled, Bool.or_eq_true, Bool.and_eq_true, decide_eq_true_eq]
    exact Or.inr ⟨hv, he⟩

/-- C7, witness: connected, Manual mode, data entered but no id: the button is disabled. -/
theorem C7_manual_empty_fields_witness :
    (run_panel panel_zero [PanelEvent.connect_sw, PanelEvent.goto_manual,
      PanelEvent.manual_data_changed (cstr "[0x01]")]).ui.state.manualId = [] ∧
    (run_panel panel_zero [PanelEvent.connect_sw, PanelEvent.goto_manual,
      PanelEvent.manual_data_changed (cstr "[0x01]")]).transmit_btn_disabled = true :=
  ⟨by decide,
   (C7_manual_empty_fields panel_zero [PanelEvent.connect_sw, PanelEvent.goto_manual,
      PanelEvent.manual_data_changed (cstr "[0x01]")]).2 (by decide) (Or.inl (by decide))⟩

/-- C7, counterexample: connected, Manual mode, `manualId` and `manualData` empty:
`on_transmit` appends a TX entry with text "CAN ID:  | Data: " and sets `isTransmitting`. -/
theorem C7_counterexample :
    (run_panel panel_zero [PanelEvent.connect_sw, PanelEvent.goto_manual]).ui.state.viewMode
      = ViewMode.VIEW_MANUAL ∧
    (run_panel panel_zero [PanelEvent.connect_sw, PanelEvent.goto_manual]).ui.state.manualId
      = [] ∧
    (run_panel panel_zero [PanelEvent.connect_sw, PanelEvent.goto_manual]).ui.state.log_count
      = 0 ∧
    (on_transmit (run_panel panel_zero [PanelEvent.connect_sw, PanelEvent.goto_manual])
      noon).ui.state.log_count = 1 ∧
    ((on_transmit (run_panel panel_zero [PanelEvent.connect_sw, PanelEvent.goto_manual])
      noon).ui.state.logs 0).message = cstr "CAN ID:  | Data: " ∧
    (on_transmit (run_panel panel_zero [PanelEvent.connect_sw, PanelEvent.goto_manual])
      noon).ui.state.isTransmitting = 1 := by
  decide

/-- C8. `logic_send_auto_rx` and `logic_send_manual_rx` each append exactly one RX entry, with
text "CAN ID: 0x123 | Data: [0x01, 0x02, 0x03]" and "ACK: OK"; from AwaitingAck
(`isTransmitting = 1`, `isRepeating = 0`) both flags are 0 afterwards; from Repeating
(`isRepeating = 1`) `isRepeating` is still 1. -/
theorem C8_rx_appends_and_resolves (s : SignalPanelState) (tmv : Tm) :
    Appends s (logic_send_auto_rx s tmv) LogType.LOG_RX
      (cstr "CAN ID: 0x123 | Data: [0x01, 0x02, 0x03]") tmv ∧
    Appends s (logic_send_manual_rx s tmv) LogType.LOG_RX (cstr "ACK: OK") tmv ∧
    (s.isTransmitting = 1 → s.isRepeating = 0 →
      (logic_send_auto_rx s tmv).isTransmitting = 0 ∧
      (logic_send_auto_rx s tmv).isRepeating = 0 ∧
      (logic_send_manual_rx s tmv).isTransmitting = 0 ∧
      (logic_send_manual_rx s tmv).isRepeating = 0) ∧
    (s.isRepeating = 1 →
      (logic_send_auto_rx s tmv).isRepeating = 1 ∧
      (logic_send_manual_rx s tmv).isRepeating = 1) := by
  refine ⟨?_, ?_, ?_, ?_⟩
  · have h := logic_add_log_appends s LogType.LOG_RX
      (cstr "CAN ID: 0x123 | Data: [0x01, 0x02, 0x03]") tmv
    rw [fixed_messages_fit.1] at h
    exact h
  · have h := logic_add_log_appends s LogType.LOG_RX (cstr "ACK: OK") tmv
    rw [fixed_messages_fit.2.1] at h
    exact h
  · intro _ hr
    exact ⟨rfl, hr, rfl, hr⟩
  · intro hr
    exact ⟨hr, hr⟩

/-- C8, witness: an ack after a one-shot send ends in Idle, an ack after the start of a
repeating session leaves `isRepeating` at 1. -/
theorem C8_rx_appends_and_resolves_witness :
    ((logic_send_auto_rx (logic_send_auto_once logic_init noon) noon).isTransmitting = 0 ∧
      (logic_send_auto_rx (logic_send_auto_once logic_init noon) noon).isRepeating = 0) ∧
    (logic_send_manual_rx (logic_start_repeating_manual logic_init noon) noon).isRepeating = 1 :=
  ⟨⟨((C8_rx_appends_and_resolves (logic_send_auto_once logic_init noon) noon).2.2.1
      rfl rfl).1,
    ((C8_rx_appends_and_resolves (logic_send_auto_once logic_init noon) noon).2.2.1
      rfl rfl).2.1⟩,
   ((C8_rx_appends_and_resolves (logic_start_repeating_manual logic_init noon) noon).2.2.2
      rfl).2⟩

/-- C9. For every state, `logic_stop` yields `isTransmitting = 0` and `isRepeating = 0` and
appends exactly one TX entry with text "停止发送"; a second `logic_stop` leaves both flags 0
and appends a second such entry. -/
theorem C9_stop_unconditional (s : SignalPanelState) (tmv tmv2 : Tm) :
    (logic_stop s tmv).isTransmitting = 0 ∧
    (logic_stop s tmv).isRepeating = 0 ∧
    Appends s (logic_stop s tmv) LogType.LOG_TX (cstr "停止发送") tmv ∧
    (logic_stop (logic_stop s tmv) tmv2).isTransmitting = (logic_stop s tmv).isTransmitting ∧
    (logic_stop (logic_stop s tmv) tmv2).isRepeating = (logic_stop s tmv).isRepeating ∧
    Appends (logic_stop s tmv) (logic_stop (logic_stop s tmv) tmv2) LogType.LOG_TX
      (cstr "停止发送") tmv2 := by
  have key : ∀ (t : SignalPanelState) (tm : Tm),
      Appends t (logic_stop t tm) LogType.LOG_TX (cstr "停止发送") tm := by
    intro t tm
    have h := logic_add_log_appends { t with isTransmitting := 0, isRepeating := 0 }
      LogType.LOG_TX (cstr "停止发送") tm
    rw [fixed_messages_fit.2.2] at h
    exact h
  exact ⟨rfl, rfl, key s tmv, rfl, rfl, key _ tmv2⟩

/-- C10 (the code misses the claim on a reachable input, by the defect of C29).
`on_transmit` dispatches as claimed from every Idle state whose handles are sound
(`LiveHandles`: each of `timer_repeat`, `timer_rx_delay` is `NULL` or the handle of a live
timer, the handles issued next are fresh); the handler does not read `isConnected`. Auto
mode, catalog interval `n > 0` of the selected function: Repeating, a periodic
`repeat_tick_cb` timer of period `n` and an ack timer (`rx_auto_cb`) of 500 ms. Auto mode,
interval 0: AwaitingAck and only an ack timer of 1000 ms. Manual mode: the same with
`manualRepeat` as the choice, `manualInterval` as the period and `rx_manual_cb` as the ack.
In each case exactly one TX entry is appended, the timers the two handles referred to are
cancelled, and no other timer is touched. The ack callbacks delete their own timer when they
run, which makes the ack timers one-shot.

The failing input, `panel_after_ack`: after connect, a one-shot transmit and its ack, with a
repeating function selected, the panel is connected, Idle, in Auto mode, the catalog interval
is 2000 and the transmit button is enabled, but no timer is live and `timer_rx_delay` still
holds the handle 0 of the timer `rx_auto_cb` deleted: the handles are not sound. `on_transmit`
creates the periodic timer and then passes that stale handle to `lv_timer_delete` in
`schedule_rx_delay`. When the allocator has handed the freed block 0 to the periodic timer,
that call deletes the periodic timer: `isRepeating = 1`, `timer_repeat` dangles, the only
live timer is the ack timer, and no `repeat_tick_cb` timer is left to fire. When the
allocator has not reused the block, both timers are live. -/
theorem C10_transmit_dispatch_stale_handle (w : Panel) (tmv : Tm)
    (hidle : w.ui.state.isTransmitting = 0 ∧ w.ui.state.isRepeating = 0)
    (hlive : LiveHandles w) :
    (w.ui.state.viewMode = ViewMode.VIEW_AUTO →
      0 < logic_get_repeat_interval_for_function w.ui.state.selectedFunction →
        (on_transmit w tmv).ui.state.isTransmitting = 1 ∧
        (on_transmit w tmv).ui.state.isRepeating = 1 ∧
        Appends w.ui.state (on_transmit w tmv).ui.state LogType.LOG_TX (auto_text w.ui.state)
          tmv ∧
        (on_transmit w tmv).ui.timer_repeat = some w.next_handle ∧
        (on_transmit w tmv).ui.timer_rx_delay = some (w.next_handle + 1) ∧
        (on_transmit w tmv).timers =
          cancel_timer (cancel_timer w.timers w.ui.timer_repeat) w.ui.timer_rx_delay ++
            [{ handle := w.next_handle, timer_cb := TimerCb.repeat_tick_cb,
               period :=
                 (logic_get_repeat_interval_for_function w.ui.state.selectedFunction).toNat },
             { handle := w.next_handle + 1, timer_cb := TimerCb.rx_auto_cb, period := 500 }]) ∧
    (w.ui.state.viewMode = ViewMode.VIEW_AUTO →
      ¬ 0 < logic_get_repeat_interval_for_function w.ui.state.selectedFunction →
        (on_transmit w tmv).ui.state.isTransmitting = 1 ∧
        (on_transmit w tmv).ui.state.isRepeating = 0 ∧
        Appends w.ui.state (on_transmit w tmv).ui.state LogType.LOG_TX (auto_text w.ui.state)
          tmv ∧
        (on_transmit w tmv).ui.timer_repeat = w.ui.timer_repeat ∧
        (on_transmit w tmv).ui.timer_rx_delay = some w.next_handle ∧
        (on_transmit w tmv).timers =
          cancel_timer w.timers w.ui.timer_rx_delay ++
            [{ handle := w.next_handle, timer_cb := TimerCb.rx_auto_cb, period := 1000 }]) ∧
    (w.ui.state.viewMode = ViewMode.VIEW_MANUAL → w.ui.state.manualRepeat ≠ 0 →
      0 ≤ w.ui.state.manualInterval → w.ui.state.manualInterval < 4294967296 →
        (on_transmit w tmv).ui.state.isTransmitting = 1 ∧
        (on_transmit w tmv).ui.state.isRepeating = 1 ∧
        Appends w.ui.state (on_transmit w tmv).ui.state LogType.LOG_TX
          ((manual_text w.ui.state).take 159) tmv ∧
        (on_transmit w tmv).ui.timer_repeat = some w.next_handle ∧
        (on_transmit w tmv).ui.timer_rx_delay = some (w.next_handle + 1) ∧
        (on_transmit w tmv).timers =
          cancel_timer (cancel_timer w.timers w.ui.timer_repeat) w.ui.timer_rx_delay ++
            [{ handle := w.next_handle, timer_cb := TimerCb.repeat_tick_cb,
               period := w.ui.state.manualInterval.toNat },
             { handle := w.next_handle + 1, timer_cb := TimerCb.rx_manual_cb,
               period := 500 }]) ∧
    (w.ui.state.viewMode = ViewMode.VIEW_MANUAL → w.ui.state.manualRepeat = 0 →
        (on_transmit w tmv).ui.state.isTransmitting = 1 ∧
        (on_transmit w tmv).ui.state.isRepeating = 0 ∧
        Appends w.ui.state (on_transmit w tmv).ui.state LogType.LOG_TX
          ((manual_text w.ui.state).take 159) tmv ∧
        (on_transmit w tmv).ui.timer_repeat = w.ui.timer_repeat ∧
        (on_transmit w tmv).ui.timer_rx_delay = some w.next_handle ∧
        (on_transmit w tmv).timers =
          cancel_timer w.timers w.ui.timer_rx_delay ++
            [{ handle := w.next_handle, timer_cb := TimerCb.rx_manual_cb, period := 1000 }]) ∧
    (∀ (v : Panel) (t : Nat) (tm : Tm),
      (∀ x ∈ (rx_auto_cb v t tm).timers, x.handle ≠ t) ∧
      (∀ x ∈ (rx_manual_cb v t tm).timers, x.handle ≠ t)) ∧
    ((panel_after_ack.ui.state.isConnected = 1 ∧
      panel_after_ack.ui.state.isTransmitting = 0 ∧
      panel_after_ack.ui.state.isRepeating = 0 ∧
      panel_after_ack.ui.state.viewMode = ViewMode.VIEW_AUTO ∧
      logic_get_repeat_interval_for_function panel_after_ack.ui.state.selectedFunction = 2000 ∧
      panel_after_ack.transmit_btn_disabled = false) ∧
     (panel_after_ack.timers = [] ∧
      panel_after_ack.ui.timer_repeat = none ∧
      panel_after_ack.ui.timer_rx_delay = some 0 ∧
      dangling panel_after_ack.timers panel_after_ack.ui.timer_rx_delay = true ∧
      ¬ LiveHandles panel_after_ack) ∧
     ((on_transmit (panel_after_ack.reissue 0) noon).ui.state.isTransmitting = 1 ∧
      (on_transmit (panel_after_ack.reissue 0) noon).ui.state.isRepeating = 1 ∧
      (on_transmit (panel_after_ack.reissue 0) noon).timers =
        [{ handle := 1, timer_cb := TimerCb.rx_auto_cb, period := 500 }] ∧
      (on_transmit (panel_after_ack.reissue 0) noon).ui.timer_repeat = some 0 ∧
      dangling (on_transmit (panel_after_ack.reissue 0) noon).timers
        (on_transmit (panel_after_ack.reissue 0) noon).ui.timer_repeat = true ∧
      (∀ t ∈ (on_transmit (panel_after_ack.reissue 0) noon).timers,
        t.timer_cb ≠ TimerCb.repeat_tick_cb)) ∧
     (on_transmit panel_after_ack noon).timers =
       [{ handle := 1, timer_cb := TimerCb.repeat_tick_cb, period := 2000 },
        { handle := 2, timer_cb := TimerCb.rx_auto_cb, period := 500 }]) := by
  have hkeep : ∀ (cb : TimerCb) (p : Nat),
      w.ui.timer_rx_delay ≠ some ({ handle := w.next_handle, timer_cb := cb, period := p } :
        lv_timer_t).handle := by
    intro cb p hx
    have hd := hlive.2.1
    rw [hx] at hd
    have hall : (w.timers.all fun x => decide (x.handle ≠ w.next_handle)) = true := by
      rw [List.all_eq_true]
      intro t ht
      exact decide_eq_true (hlive.2.2 t ht).1
    exact Bool.false_ne_true (hd.symm.trans hall)
  refine ⟨?_, ?_, ?_, ?_, ?_, ?_⟩
  · intro hv hn
    have happ := logic_add_log_appends { w.ui.state with isTransmitting := 1, isRepeating := 1 }
      LogType.LOG_TX (auto_text w.ui.state) tmv
    rw [auto_text_take] at happ
    have e : on_transmit w tmv = update_transmit_button_state (schedule_rx_delay
        (arm_repeat (w.set_state (logic_start_repeating_auto w.ui.state tmv))
          (to_uint32 (logic_get_repeat_interval_for_function w.ui.state.selectedFunction)))
        500 false) := by
      simp only [on_transmit, if_pos hv, if_pos hn]
    rw [e, schedule_rx_delay_eq, arm_repeat_eq, to_uint32_repeat_interval]
    refine ⟨rfl, rfl, happ, rfl, rfl, ?_⟩
    have key := cancel_timer_append_keep (cancel_timer w.timers w.ui.timer_repeat)
      w.ui.timer_rx_delay
      { handle := w.next_handle, timer_cb := TimerCb.repeat_tick_cb
        period := (logic_get_repeat_interval_for_function w.ui.state.selectedFunction).toNat }
      (hkeep _ _)
    show cancel_timer (cancel_timer w.timers w.ui.timer_repeat ++
        [{ handle := w.next_handle, timer_cb := TimerCb.repeat_tick_cb
           period :=
             (logic_get_repeat_interval_for_function w.ui.state.selectedFunction).toNat }])
        w.ui.timer_rx_delay ++
        [{ handle := w.next_handle + 1, timer_cb := TimerCb.rx_auto_cb, period := 500 }] = _
    rw [key, List.append_assoc]
    rfl
  · intro hv hn
    have happ := logic_add_log_appends { w.ui.state with isTransmitting := 1 }
      LogType.LOG_TX (auto_text w.ui.state) tmv
    rw [auto_text_take] at happ
    have e : on_transmit w tmv = update_transmit_button_state (schedule_rx_delay
        (w.set_state (logic_send_auto_once w.ui.state tmv)) 1000 false) := by
      simp only [on_transmit, if_pos hv, if_neg hn]
    rw [e, schedule_rx_delay_eq]
    exact ⟨rfl, hidle.2, happ, rfl, rfl, rfl⟩
  · intro hv hr h0 h1
    have hva : ¬ w.ui.state.viewMode = ViewMode.VIEW_AUTO := by rw [hv]; decide
    have happ := logic_add_log_appends { w.ui.state with isTransmitting := 1, isRepeating := 1 }
      LogType.LOG_TX (manual_text w.ui.state) tmv
    have hp : to_uint32 (logic_start_repeating_manual w.ui.state tmv).manualInterval =
        w.ui.state.manualInterval.toNat := to_uint32_of_range _ h0 h1
    have e : on_transmit w tmv = update_transmit_button_state (schedule_rx_delay
        (arm_repeat (w.set_state (logic_start_repeating_manual w.ui.state tmv))
          (to_uint32 (logic_start_repeating_manual w.ui.state tmv).manualInterval))
        500 true) := by
      simp only [on_transmit, if_neg hva, if_pos hr]
    rw [e, schedule_rx_delay_eq, arm_repeat_eq, hp]
    refine ⟨rfl, rfl, happ, rfl, rfl, ?_⟩
    have key := cancel_timer_append_keep (cancel_timer w.timers w.ui.timer_repeat)
      w.ui.timer_rx_delay
      { handle := w.next_handle, timer_cb := TimerCb.repeat_tick_cb
        period := w.ui.state.manualInterval.toNat }
      (hkeep _ _)
    show cancel_timer (cancel_timer w.timers w.ui.timer_repeat ++
        [{ handle := w.next_handle, timer_cb := TimerCb.repeat_tick_cb
           period := w.ui.state.manualInterval.toNat }])
        w.ui.timer_rx_delay ++
        [{ handle := w.next_handle + 1, timer_cb := TimerCb.rx_manual_cb, period := 500 }] = _
    rw [key, List.append_assoc]
    rfl
  · intro hv hr
    have hva : ¬ w.ui.state.viewMode = ViewMode.VIEW_AUTO := by rw [hv]; decide
    have happ := logic_add_log_appends { w.ui.state with isTransmitting := 1 }
      LogType.LOG_TX (manual_text w.ui.state) tmv
    have e : on_transmit w tmv = update_transmit_button_state (schedule_rx_delay
        (w.set_state (logic_send_manual_once w.ui.state tmv)) 1000 true) := by
      simp only [on_transmit, if_neg hva, if_neg (not_not.2 hr)]
    rw [e, schedule_rx_delay_eq]
    exact ⟨rfl, hidle.2, happ, rfl, rfl, rfl⟩
  · intro v t tm
    constructor
    · intro x hx
      have := (mem_cancel_timer (h := some t) hx).2
      exact fun e => this (by rw [e])
    · intro x hx
      have := (mem_cancel_timer (h := some t) hx).2
      exact fun e => this (by rw [e])
  · refine ⟨by decide, ⟨by decide, by decide, by decide, by decide, ?_⟩, by decide, by decide⟩
    intro h
    exact Bool.false_ne_true (h.2.1.symm.trans (by decide))

/-- C10, witness: from the created panel (both handles `NULL`) with the repeating function
"调节座椅" of Sound selected, transmit arms the periodic timer at 2000 ms and the ack timer at
500 ms; after connect, a one-shot transmit and Stop (the ack timer, handle 0, is still live),
transmit of the default one-shot function cancels that ack timer and arms a new one at
1000 ms only. -/
theorem C10_transmit_dispatch_stale_handle_witness :
    (on_transmit (run_panel panel_zero
      [PanelEvent.connect_sw, PanelEvent.category_changed (cstr "声音 (Sound)"),
       PanelEvent.function_changed (cstr "调节座椅")]) noon).timers
      = [{ handle := 0, timer_cb := TimerCb.repeat_tick_cb, period := 2000 },
         { handle := 1, timer_cb := TimerCb.rx_auto_cb, period := 500 }] ∧
    (on_transmit (run_panel panel_zero
      [PanelEvent.connect_sw, PanelEvent.transmit noon, PanelEvent.stop noon]) noon).timers
      = [{ handle := 1, timer_cb := TimerCb.rx_auto_cb, period := 1000 }] :=
  ⟨((C10_transmit_dispatch_stale_handle (run_panel panel_zero
      [PanelEvent.connect_sw, PanelEvent.category_changed (cstr "声音 (Sound)"),
       PanelEvent.function_changed (cstr "调节座椅")]) noon ⟨by decide, by decide⟩
      (by unfold LiveHandles; decide)).1
      (by decide) (by decide)).2.2.2.2.2.trans (by decide),
   ((C10_transmit_dispatch_stale_handle (run_panel panel_zero
      [PanelEvent.connect_sw, PanelEvent.transmit noon, PanelEvent.stop noon]) noon
      ⟨by decide, by decide⟩
      (by unfold LiveHandles; decide)).2.1
      (by decide) (by decide)).2.2.2.2.2.trans (by decide)⟩

/-! ## Further lemmas on the engine -/

/-- Below a full buffer the slot is `log_count` itself. -/
theorem log_slot_of_lt (s : SignalPanelState) (h : s.log_count < 256) :
    log_slot s = s.log_count := by
  unfold log_slot
  split
  · omega
  · rfl

/-- The cell `logic_add_log` writes, read back through a `Fin 256` index. -/
theorem logic_add_log_read (s : SignalPanelState) (type : LogType) (msg : Bytes) (tmv : Tm)
    (i : Fin 256) (hi : (i.val : Int) = log_slot s) :
    (logic_add_log s type msg tmv).logs i = new_entry s type msg tmv := by
  simp [logic_add_log, hi]

/-- A cell `logic_add_log` does not write. -/
theorem logic_add_log_other (s : SignalPanelState) (type : LogType) (msg : Bytes) (tmv : Tm)
    (i : Fin 256) (hi : (i.val : Int) ≠ log_slot s) :
    (logic_add_log s type msg tmv).logs i = s.logs i := by
  simp [logic_add_log, hi]

/-- `Appends` with the message replaced by an equal one. -/
theorem Appends_of_msg_eq {s s1 : SignalPanelState} {type : LogType} {msg msg1 : Bytes}
    {tmv : Tm} (h : Appends s s1 type msg tmv) (e : msg = msg1) :
    Appends s s1 type msg1 tmv := by
  rw [← e]
  exact h

/-- The text of an automatic frame for Sound, "调节座椅". -/
theorem auto_text_sound_seat (s : SignalPanelState)
    (hc : s.selectedCategory = categories 1) (hf : s.selectedFunction = sound_funcs 2) :
    auto_text s = cstr "声音 (Sound) - 调节座椅" := by
  unfold auto_text
  rw [hc, hf]
  decide

/-! ## The claims, continued -/

/-- C11. One-shot round trip. From an Idle state with `0 <= log_count <= 254` (the other
premises, connected, Auto mode and a function with interval 0, are not read by the two
operations): `logic_send_auto_once` appends exactly one TX entry and yields AwaitingAck;
`logic_send_auto_rx` then appends exactly one RX entry and yields Idle. The two entries lie
at positions `log_count` and `log_count + 1`, TX then RX, with consecutive ids, and
`log_count` has grown by 2; from an empty log it is 2, with the TX entry at position 0 and
the RX entry at position 1. -/
theorem C11_one_shot_round_trip (s : SignalPanelState) (tmv tmv2 : Tm)
    (hidle : s.isTransmitting = 0 ∧ s.isRepeating = 0)
    (h0 : 0 ≤ s.log_count) (h254 : s.log_count ≤ 254) :
    Appends s (logic_send_auto_once s tmv) LogType.LOG_TX (auto_text s) tmv ∧
    (logic_send_auto_once s tmv).isTransmitting = 1 ∧
    (logic_send_auto_once s tmv).isRepeating = 0 ∧
    Appends (logic_send_auto_once s tmv) (logic_send_auto_rx (logic_send_auto_once s tmv) tmv2)
      LogType.LOG_RX (cstr "CAN ID: 0x123 | Data: [0x01, 0x02, 0x03]") tmv2 ∧
    (logic_send_auto_rx (logic_send_auto_once s tmv) tmv2).isTransmitting = 0 ∧
    (logic_send_auto_rx (logic_send_auto_once s tmv) tmv2).isRepeating = 0 ∧
    (logic_send_auto_rx (logic_send_auto_once s tmv) tmv2).log_count = s.log_count + 2 ∧
    (∀ i j : Fin 256, (i.val : Int) = s.log_count → (j.val : Int) = s.log_count + 1 →
      (logic_send_auto_rx (logic_send_auto_once s tmv) tmv2).logs i =
        { id := s.next_log_id, type := LogType.LOG_TX, timestamp := make_timestamp tmv,
          message := auto_text s } ∧
      (logic_send_auto_rx (logic_send_auto_once s tmv) tmv2).logs j =
        { id := wrap_int (s.next_log_id + 1), type := LogType.LOG_RX,
          timestamp := make_timestamp tmv2,
          message := cstr "CAN ID: 0x123 | Data: [0x01, 0x02, 0x03]" }) ∧
    (s.log_count = 0 →
      (logic_send_auto_rx (logic_send_auto_once s tmv) tmv2).log_count = 2 ∧
      ((logic_send_auto_rx (logic_send_auto_once s tmv) tmv2).logs 0).type = LogType.LOG_TX ∧
      ((logic_send_auto_rx (logic_send_auto_once s tmv) tmv2).logs 1).type = LogType.LOG_RX) := by
  have hslot : log_slot s = s.log_count := log_slot_of_lt s (by omega)
  have hcount1 : (logic_send_auto_once s tmv).log_count = s.log_count + 1 := by
    show log_slot s + 1 = _
    rw [hslot]
  have hslot1 : log_slot (logic_send_auto_once s tmv) = s.log_count + 1 := by
    rw [log_slot_of_lt _ (by rw [hcount1]; omega), hcount1]
  have happ1 : Appends s (logic_send_auto_once s tmv) LogType.LOG_TX (auto_text s) tmv := by
    have h := logic_add_log_appends { s with isTransmitting := 1 } LogType.LOG_TX
      (auto_text s) tmv
    rw [auto_text_take] at h
    exact h
  have happ2 : Appends (logic_send_auto_once s tmv)
      (logic_send_auto_rx (logic_send_auto_once s tmv) tmv2) LogType.LOG_RX
      (cstr "CAN ID: 0x123 | Data: [0x01, 0x02, 0x03]") tmv2 := by
    have h := logic_add_log_appends (logic_send_auto_once s tmv) LogType.LOG_RX
      (cstr "CAN ID: 0x123 | Data: [0x01, 0x02, 0x03]") tmv2
    rw [fixed_messages_fit.1] at h
    exact h
  have hcount2 : (logic_send_auto_rx (logic_send_auto_once s tmv) tmv2).log_count
      = s.log_count + 2 := by
    rw [happ2.1, hslot1]
    omega
  have hentries : ∀ i j : Fin 256, (i.val : Int) = s.log_count →
      (j.val : Int) = s.log_count + 1 →
      (logic_send_auto_rx (logic_send_auto_once s tmv) tmv2).logs i =
        { id := s.next_log_id, type := LogType.LOG_TX, timestamp := make_timestamp tmv,
          message := auto_text s } ∧
      (logic_send_auto_rx (logic_send_auto_once s tmv) tmv2).logs j =
        { id := wrap_int (s.next_log_id + 1), type := LogType.LOG_RX,
          timestamp := make_timestamp tmv2,
          message := cstr "CAN ID: 0x123 | Data: [0x01, 0x02, 0x03]" } := by
    intro i j hi hj
    constructor
    · have h1 : (logic_send_auto_rx (logic_send_auto_once s tmv) tmv2).logs i =
          (logic_send_auto_once s tmv).logs i :=
        logic_add_log_other (logic_send_auto_once s tmv) _ _ tmv2 i (by rw [hslot1]; omega)
      rw [h1]
      have h2 := logic_add_log_read { s with isTransmitting := 1 } LogType.LOG_TX
        (auto_text s) tmv i (by rw [hi]; exact hslot.symm)
      have h3 : (logic_send_auto_once s tmv).logs i = _ := h2
      rw [h3, new_entry, snprintf_s]
      show LogMessage.mk _ _ _ (List.take 159 (auto_text s)) = _
      rw [auto_text_take]
    · have h1 := logic_add_log_read (logic_send_auto_once s tmv) LogType.LOG_RX
        (cstr "CAN ID: 0x123 | Data: [0x01, 0x02, 0x03]") tmv2 j (by rw [hj]; exact hslot1.symm)
      have h3 : (logic_send_auto_rx (logic_send_auto_once s tmv) tmv2).logs j = _ := h1
      rw [h3, new_entry, snprintf_s]
      show LogMessage.mk _ _ _ (List.take 159 _) = _
      rw [fixed_messages_fit.1]
      rfl
  refine ⟨happ1, rfl, hidle.2, happ2, rfl, hidle.2, hcount2, hentries, ?_⟩
  intro hz
  have h01 := hentries 0 1 (by simp [hz]) (by simp [hz])
  refine ⟨by rw [hcount2, hz]; rfl, ?_, ?_⟩
  · rw [h01.1]
  · rw [h01.2]

/-- C11, witness: connect, then a one-shot send of the default function "启动发动机" and
its ack on the empty log: two entries, TX then RX, state Idle. -/
theorem C11_one_shot_round_trip_witness :
    logic_get_repeat_interval_for_function (logic_toggle_connected logic_init).selectedFunction
      = 0 ∧
    (logic_send_auto_rx (logic_send_auto_once (logic_toggle_connected logic_init) noon)
      noon).log_count = 2 ∧
    ((logic_send_auto_rx (logic_send_auto_once (logic_toggle_connected logic_init) noon)
      noon).logs 0).type = LogType.LOG_TX ∧
    ((logic_send_auto_rx (logic_send_auto_once (logic_toggle_connected logic_init) noon)
      noon).logs 1).type = LogType.LOG_RX :=
  ⟨by decide,
   (C11_one_shot_round_trip (logic_toggle_connected logic_init) noon noon ⟨rfl, rfl⟩
     (by decide) (by decide)).2.2.2.2.2.2.2.2 rfl⟩

/-- C12. Repeating round trip. With category "声音 (Sound)" and function "调节座椅" selected
(catalog interval 2000) and `0 <= log_count <= 253`: `logic_start_repeating_auto` appends one
TX entry "声音 (Sound) - 调节座椅" and yields `isTransmitting = 1`, `isRepeating = 1`;
`logic_repeat_auto_tick` appends one more such TX entry and leaves both flags as they are;
`logic_stop` appends the TX entry "停止发送" and yields both flags 0; `log_count` has grown
by 3. -/
theorem C12_repeating_round_trip (s : SignalPanelState) (tm1 tm2 tm3 : Tm)
    (hc : s.selectedCategory = categories 1) (hf : s.selectedFunction = sound_funcs 2)
    (h0 : 0 ≤ s.log_count) (h253 : s.log_count ≤ 253) :
    logic_get_repeat_interval_for_function s.selectedFunction = 2000 ∧
    Appends s (logic_start_repeating_auto s tm1) LogType.LOG_TX
      (cstr "声音 (Sound) - 调节座椅") tm1 ∧
    (logic_start_repeating_auto s tm1).isTransmitting = 1 ∧
    (logic_start_repeating_auto s tm1).isRepeating = 1 ∧
    Appends (logic_start_repeating_auto s tm1)
      (logic_repeat_auto_tick (logic_start_repeating_auto s tm1) tm2) LogType.LOG_TX
      (cstr "声音 (Sound) - 调节座椅") tm2 ∧
    (logic_repeat_auto_tick (logic_start_repeating_auto s tm1) tm2).isTransmitting = 1 ∧
    (logic_repeat_auto_tick (logic_start_repeating_auto s tm1) tm2).isRepeating = 1 ∧
    Appends (logic_repeat_auto_tick (logic_start_repeating_auto s tm1) tm2)
      (logic_stop (logic_repeat_auto_tick (logic_start_repeating_auto s tm1) tm2) tm3)
      LogType.LOG_TX (cstr "停止发送") tm3 ∧
    (logic_stop (logic_repeat_auto_tick (logic_start_repeating_auto s tm1) tm2)
      tm3).isTransmitting = 0 ∧
    (logic_stop (logic_repeat_auto_tick (logic_start_repeating_auto s tm1) tm2)
      tm3).isRepeating = 0 ∧
    (logic_stop (logic_repeat_auto_tick (logic_start_repeating_auto s tm1) tm2)
      tm3).log_count = s.log_count + 3 := by
  have htext := auto_text_sound_seat s hc hf
  have hslot : log_slot s = s.log_count := log_slot_of_lt s (by omega)
  have happ1 : Appends s (logic_start_repeating_auto s tm1) LogType.LOG_TX
      (cstr "声音 (Sound) - 调节座椅") tm1 := by
    have h := logic_add_log_appends { s with isTransmitting := 1, isRepeating := 1 }
      LogType.LOG_TX (auto_text s) tm1
    exact Appends_of_msg_eq h ((auto_text_take s).trans htext)
  have hc1 : (logic_start_repeating_auto s tm1).log_count = s.log_count + 1 := by
    rw [happ1.1, hslot]
  have htext1 : auto_text (logic_start_repeating_auto s tm1) =
      cstr "声音 (Sound) - 调节座椅" := auto_text_sound_seat _ hc hf
  have happ2 : Appends (logic_start_repeating_auto s tm1)
      (logic_repeat_auto_tick (logic_start_repeating_auto s tm1) tm2) LogType.LOG_TX
      (cstr "声音 (Sound) - 调节座椅") tm2 := by
    have h := logic_add_log_appends (logic_start_repeating_auto s tm1)
      LogType.LOG_TX (auto_text (logic_start_repeating_auto s tm1)) tm2
    exact Appends_of_msg_eq h ((auto_text_take _).trans htext1)
  have hc2 : (logic_repeat_auto_tick (logic_start_repeating_auto s tm1) tm2).log_count
      = s.log_count + 2 := by
    rw [happ2.1, log_slot_of_lt _ (by rw [hc1]; omega), hc1]
    omega
  have happ3 : Appends (logic_repeat_auto_tick (logic_start_repeating_auto s tm1) tm2)
      (logic_stop (logic_repeat_auto_tick (logic_start_repeating_auto s tm1) tm2) tm3)
      LogType.LOG_TX (cstr "停止发送") tm3 := by
    have h := logic_add_log_appends
      { logic_repeat_auto_tick (logic_start_repeating_auto s tm1) tm2 with
        isTransmitting := 0, isRepeating := 0 }
      LogType.LOG_TX (cstr "停止发送") tm3
    rw [fixed_messages_fit.2.2] at h
    exact h
  have hc3 : (logic_stop (logic_repeat_auto_tick (logic_start_repeating_auto s tm1) tm2)
      tm3).log_count = s.log_count + 3 := by
    rw [happ3.1, log_slot_of_lt _ (by rw [hc2]; omega), hc2]
    omega
  refine ⟨?_, happ1, rfl, rfl, happ2, rfl, rfl, happ3, rfl, rfl, hc3⟩
  rw [hf]
  decide

/-- C12, witness: the calls of `tests/test_logic.c`: select Sound and "调节座椅" after
`logic_init`, start, tick, stop. -/
theorem C12_repeating_round_trip_witness :
    (logic_stop (logic_repeat_auto_tick (logic_start_repeating_auto
      (logic_set_function (logic_set_category logic_init (cstr "声音 (Sound)"))
        (cstr "调节座椅")) noon) noon) noon).log_count = 3 ∧
    (logic_stop (logic_repeat_auto_tick (logic_start_repeating_auto
      (logic_set_function (logic_set_category logic_init (cstr "声音 (Sound)"))
        (cstr "调节座椅")) noon) noon) noon).isRepeating = 0 :=
  ⟨(C12_repeating_round_trip
      (logic_set_function (logic_set_category logic_init (cstr "声音 (Sound)"))
        (cstr "调节座椅")) noon noon noon (by decide) (by decide) (by decide)
      (by decide)).2.2.2.2.2.2.2.2.2.2,
   (C12_repeating_round_trip
      (logic_set_function (logic_set_category logic_init (cstr "声音 (Sound)"))
        (cstr "调节座椅")) noon noon noon (by decide) (by decide) (by decide)
      (by decide)).2.2.2.2.2.2.2.2.2.1⟩

/-! ### Ids along appends and clears -/

theorem count_adds_append (xs ys : List BufferOp) :
    count_adds (xs ++ ys) = count_adds xs + count_adds ys := by
  induction xs with
  | nil => simp [count_adds]
  | cons x xs ih =>
    cases x with
    | add c =>
      show count_adds (xs ++ ys) + 1 = count_adds xs + 1 + count_adds ys
      rw [ih]
      omega
    | clear =>
      show count_adds (xs ++ ys) = count_adds xs + count_adds ys
      exact ih

theorem wrap_int_of_range (x : Int) (h0 : 0 ≤ x) (h1 : x < 2147483648) : wrap_int x = x := by
  unfold wrap_int
  omega

/-- The id counter counts the appends, as long as their number stays below 2^31. -/
theorem next_log_id_counts (ops : List BufferOp) :
    ∀ (s : SignalPanelState) (n : Nat), s.next_log_id = n →
      n + count_adds ops < 2147483648 →
      (ops.foldl BufferOp.run s).next_log_id = (n + count_adds ops : Nat) := by
  induction ops with
  | nil => intro s n hs _; simpa [count_adds] using hs
  | cons op ops ih =>
    intro s n hs hlt
    cases op with
    | add c =>
      simp only [count_adds] at hlt
      have h1 : (BufferOp.run s (BufferOp.add c)).next_log_id = ((n + 1 : Nat) : Int) := by
        show wrap_int (s.next_log_id + 1) = _
        rw [hs, wrap_int_of_range _ (by omega) (by omega)]
        simp
      have := ih (BufferOp.run s (BufferOp.add c)) (n + 1) h1 (by omega)
      simp only [List.foldl_cons, count_adds]
      rw [this]
      congr 1
      omega
    | clear =>
      simp only [count_adds] at hlt
      have := ih (BufferOp.run s BufferOp.clear) n hs hlt
      simpa only [List.foldl_cons, count_adds] using this

/-- `log_count` stays within `0 .. 256` along appends and clears. -/
theorem run_buffer_ops_log_count (ops : List BufferOp) :
    0 ≤ (run_buffer_ops ops).log_count ∧ (run_buffer_ops ops).log_count ≤ 256 := by
  unfold run_buffer_ops
  refine foldl_invariant BufferOp.run (fun s => 0 ≤ s.log_count ∧ s.log_count ≤ 256) ?_ ops
    logic_init (by simp [logic_init])
  intro s op hs
  cases op with
  | add c => exact LogicOp.run_log_count s (LogicOp.add_log c.type c.msg c.tmv) hs
  | clear => exact LogicOp.run_log_count s LogicOp.clear_logs hs

/-- C13. Along any sequence of `logic_add_log` and `logic_clear_logs` calls after
`logic_init`, an append that is preceded by `k` appends, with fewer than 2^31 appends in all
(`k + 1 < 2^31`), finds `next_log_id = k`, stores an entry with id `k` in the array and
leaves `next_log_id = k + 1`; `logic_clear_logs` leaves `next_log_id` unchanged. So the ids
are assigned in append order 0, 1, 2, ...: an earlier append has the smaller id, and no id
is assigned twice. -/
theorem C13_ids_count_appends (pre : List BufferOp) (c : AddLogCall)
    (h : count_adds pre + 1 < 2147483648) :
    (run_buffer_ops pre).next_log_id = count_adds pre ∧
    (∃ i : Fin 256, (i.val : Int) = log_slot (run_buffer_ops pre) ∧
      ((run_buffer_ops (pre ++ [BufferOp.add c])).logs i).id = count_adds pre) ∧
    (run_buffer_ops (pre ++ [BufferOp.add c])).next_log_id = count_adds pre + 1 ∧
    (run_buffer_ops (pre ++ [BufferOp.clear])).next_log_id = (run_buffer_ops pre).next_log_id ∧
    (∀ (pre1 : List BufferOp) (c1 : AddLogCall) (mid : List BufferOp),
      pre = pre1 ++ BufferOp.add c1 :: mid → count_adds pre1 < count_adds pre) := by
  have hid : (run_buffer_ops pre).next_log_id = count_adds pre := by
    have := next_log_id_counts pre logic_init 0 rfl (by omega)
    simpa [run_buffer_ops] using this
  have hrun : ∀ op, run_buffer_ops (pre ++ [op]) = BufferOp.run (run_buffer_ops pre) op := by
    intro op
    simp [run_buffer_ops, List.foldl_append]
  refine ⟨hid, ?_, ?_, ?_, ?_⟩
  · obtain ⟨i, hi⟩ := log_slot_in_array (run_buffer_ops pre) (run_buffer_ops_log_count pre).1
    refine ⟨i, hi, ?_⟩
    rw [hrun]
    show ((logic_add_log (run_buffer_ops pre) c.type c.msg c.tmv).logs i).id = _
    rw [logic_add_log_read _ _ _ _ i hi, new_entry, hid]
  · rw [hrun]
    show wrap_int ((run_buffer_ops pre).next_log_id + 1) = _
    rw [hid, wrap_int_of_range _ (by omega) (by omega)]
  · rw [hrun]
    rfl
  · intro pre1 c1 mid hpre
    rw [hpre, count_adds_append]
    simp only [count_adds]
    omega

/-- C13, witness: append, clear, append, then a third append: it stores id 2. -/
theorem C13_ids_count_appends_witness :
    ∃ i : Fin 256,
      ((run_buffer_ops
        ([BufferOp.add { type := LogType.LOG_TX, msg := cstr "a", tmv := noon },
          BufferOp.clear,
          BufferOp.add { type := LogType.LOG_RX, msg := cstr "b", tmv := noon }] ++
         [BufferOp.add { type := LogType.LOG_TX, msg := cstr "c", tmv := noon }])).logs i).id
        = 2 :=
  (C13_ids_count_appends
    [BufferOp.add { type := LogType.LOG_TX, msg := cstr "a", tmv := noon },
     BufferOp.clear,
     BufferOp.add { type := LogType.LOG_RX, msg := cstr "b", tmv := noon }]
    { type := LogType.LOG_TX, msg := cstr "c", tmv := noon } (by decide)).2.1.imp
    (fun _ hi => hi.2)

/-- C14. `logic_get_repeat_interval_for_function` returns 2000 for "调节座椅" (Sound,
index 2), 3000 for "气囊检测" (Inspection, index 1), 1500 for "油门控制" (Display, index 1)
and 0 for every other string. `ui_config_is_repeating_function(c, f, &out)` returns true
exactly for `(c, f)` among (1,2), (2,1), (0,1), writing 2000, 3000, 1500 to `out`, and
returns false with `out` untouched for every other pair. -/
theorem C14_repeat_interval_tables :
    logic_get_repeat_interval_for_function (cstr "调节座椅") = 2000 ∧
    logic_get_repeat_interval_for_function (cstr "气囊检测") = 3000 ∧
    logic_get_repeat_interval_for_function (cstr "油门控制") = 1500 ∧
    sound_funcs 2 = cstr "调节座椅" ∧ inspection_funcs 1 = cstr "气囊检测" ∧
    display_funcs 1 = cstr "油门控制" ∧
    (∀ func : Bytes, func ≠ cstr "调节座椅" → func ≠ cstr "气囊检测" → func ≠ cstr "油门控制" →
      logic_get_repeat_interval_for_function func = 0) ∧
    (∀ out : Nat,
      ui_config_is_repeating_function 1 2 (some out) = (true, some 2000) ∧
      ui_config_is_repeating_function 2 1 (some out) = (true, some 3000) ∧
      ui_config_is_repeating_function 0 1 (some out) = (true, some 1500) ∧
      ui_config_is_repeating_function 0 0 (some out) = (false, some out)) ∧
    (∀ c f out : Nat, (c, f) ≠ (1, 2) → (c, f) ≠ (2, 1) → (c, f) ≠ (0, 1) →
      ui_config_is_repeating_function c f (some out) = (false, some out)) ∧
    (∀ c f out : Nat, (ui_config_is_repeating_function c f (some out)).1 = true ↔
      ((c, f) = (1, 2) ∨ (c, f) = (2, 1) ∨ (c, f) = (0, 1))) := by
  have hfalse : ∀ c f out : Nat, (c, f) ≠ (1, 2) → (c, f) ≠ (2, 1) → (c, f) ≠ (0, 1) →
      ui_config_is_repeating_function c f (some out) = (false, some out) := by
    intro c f out h1 h2 h3
    simp only [ne_eq, Prod.mk.injEq, not_and] at h1 h2 h3
    have e1 : ¬ (1 = c ∧ 2 = f) := fun h => h1 h.1.symm h.2.symm
    have e2 : ¬ (2 = c ∧ 1 = f) := fun h => h2 h.1.symm h.2.symm
    have e3 : ¬ (0 = c ∧ 1 = f) := fun h => h3 h.1.symm h.2.symm
    simp [ui_config_is_repeating_function, REPEATING_FUNCTIONS, is_repeating_loop, e1, e2, e3]
  refine ⟨by decide, by decide, by decide, rfl, rfl, rfl, ?_, ?_, hfalse, ?_⟩
  · intro func h1 h2 h3
    simp [logic_get_repeat_interval_for_function, repeat_interval_for, h1, h2, h3]
  · intro out
    exact ⟨rfl, rfl, rfl, rfl⟩
  · intro c f out
    constructor
    · intro h
      by_contra hne
      simp only [not_or] at hne
      rw [hfalse c f out hne.1 hne.2.1 hne.2.2] at h
      exact Bool.false_ne_true h
    · rintro (h | h | h) <;>
      · simp only [Prod.mk.injEq] at h
        rw [h.1, h.2]
        rfl

/-- C14, witness: the pair (2, 2) is not in the table; `out` keeps its value 7. -/
theorem C14_repeat_interval_tables_witness :
    ui_config_is_repeating_function 2 2 (some 7) = (false, some 7) ∧
    logic_get_repeat_interval_for_function (cstr "刹车控制") = 0 :=
  ⟨C14_repeat_interval_tables.2.2.2.2.2.2.2.2.1 2 2 7 (by decide) (by decide) (by decide),
   C14_repeat_interval_tables.2.2.2.2.2.2.1 (cstr "刹车控制") (by decide) (by decide)
     (by decide)⟩

/-! ### The selection -/

/-- The category and function names fit their 32-byte fields. -/
theorem names_fit :
    (∀ c : Fin 3, snprintf_s 32 (categories c) = categories c) ∧
    (∀ c i : Fin 3, snprintf_s 32 (function_names c i) = function_names c i) := by
  decide

/-- `logic_set_category` with the name of category `c` selects the first function of `c`. -/
theorem logic_set_category_selects (s : SignalPanelState) (c : Fin 3) :
    (logic_set_category s (categories c)).selectedCategory = categories c ∧
    (logic_set_category s (categories c)).selectedFunction = function_names c 0 := by
  refine ⟨names_fit.1 c, ?_⟩
  show snprintf_s 32 (if categories c = categories 1 then sound_funcs 0
    else if categories c = categories 2 then inspection_funcs 0 else display_funcs 0) = _
  revert c
  decide

/-- The operations other than the two selection setters keep the selection. -/
theorem LogicOp.run_selection (s : SignalPanelState) (op : LogicOp)
    (h1 : ∀ category, op ≠ LogicOp.set_category category)
    (h2 : ∀ func, op ≠ LogicOp.set_function func) :
    (op.run s).selectedCategory = s.selectedCategory ∧
    (op.run s).selectedFunction = s.selectedFunction := by
  cases op with
  | set_category category => exact absurd rfl (h1 category)
  | set_function func => exact absurd rfl (h2 func)
  | set_scene scene tmv =>
    simp only [LogicOp.run, logic_set_scene]
    split <;> exact ⟨rfl, rfl⟩
  | add_log type msg tmv => exact ⟨rfl, rfl⟩
  | toggle_connected => exact ⟨rfl, rfl⟩
  | clear_logs => exact ⟨rfl, rfl⟩
  | start_repeating_auto tmv => exact ⟨rfl, rfl⟩
  | repeat_auto_tick tmv => exact ⟨rfl, rfl⟩
  | send_auto_once tmv => exact ⟨rfl, rfl⟩
  | send_auto_rx tmv => exact ⟨rfl, rfl⟩
  | start_repeating_manual tmv => exact ⟨rfl, rfl⟩
  | repeat_manual_tick tmv => exact ⟨rfl, rfl⟩
  | send_manual_once tmv => exact ⟨rfl, rfl⟩
  | send_manual_rx tmv => exact ⟨rfl, rfl⟩
  | stop tmv => exact ⟨rfl, rfl⟩

theorem ValidSelection_step (s : SignalPanelState) (op : LogicOp) (ho : op.offered s)
    (h : ValidSelection s) : ValidSelection (op.run s) := by
  by_cases h1 : ∃ category, op = LogicOp.set_category category
  · obtain ⟨category, rfl⟩ := h1
    obtain ⟨c, rfl⟩ := ho
    exact ⟨c, 0, (logic_set_category_selects s c).1, (logic_set_category_selects s c).2⟩
  · by_cases h2 : ∃ func, op = LogicOp.set_function func
    · obtain ⟨func, rfl⟩ := h2
      obtain ⟨c, i, hc, rfl⟩ := ho
      exact ⟨c, i, hc, names_fit.2 c i⟩
    · have hsel := LogicOp.run_selection s op (fun category e => h1 ⟨category, e⟩)
        (fun func e => h2 ⟨func, e⟩)
      obtain ⟨c, i, hc, hf⟩ := h
      exact ⟨c, i, hsel.1.trans hc, hsel.2.trans hf⟩

theorem ValidSelection_run (ops : List LogicOp) :
    ∀ s : SignalPanelState, ValidSelection s → offered_run s ops →
      ValidSelection (ops.foldl LogicOp.run s) := by
  induction ops with
  | nil => intro s h _; exact h
  | cons op ops ih =>
    intro s h ho
    exact ih _ (ValidSelection_step s op ho.1 h) ho.2

theorem UiValidSelection_step (g : ui_state_t) (op : UiSelectOp) (ho : op.offered g)
    (h : UiValidSelection g) : UiValidSelection (op.run g) := by
  cases op with
  | set_category category =>
    simp only [UiSelectOp.run, ui_state_set_category, CATEGORY_COUNT]
    split
    · next hlt =>
      show 0 < ui_config_get_function_count category
      have : category = 0 ∨ category = 1 ∨ category = 2 := by omega
      rcases this with e | e | e <;> rw [e] <;> decide
    · exact h
  | set_function function_index =>
    have ho1 : function_index < ui_config_get_function_count g.selected_category := ho
    show function_index % 256 < ui_config_get_function_count g.selected_category
    exact Nat.lt_of_le_of_lt (Nat.mod_le _ _) ho1

theorem UiValidSelection_run (ops : List UiSelectOp) :
    ∀ g : ui_state_t, UiValidSelection g → ui_offered_run g ops →
      UiValidSelection (ops.foldl UiSelectOp.run g) := by
  induction ops with
  | nil => intro g h _; exact h
  | cons op ops ih =>
    intro g h ho
    exact ih _ (UiValidSelection_step g op ho.1 h) ho.2

/-- C15 (as the code has it). The setters have no failure path; validity of the selection is
kept by what the callers pass. The selected function is valid for the selected category in
every state reached from `logic_init` (name-based engine) or from `ui_state_init`
(index-based UI state) as long as the callers pass what the dropdowns offer: one of the
three category names, and a function name (an index below the function count) of the
category selected at that time. -/
theorem C15_selection_valid_when_offered (ops : List LogicOp) (uops : List UiSelectOp)
    (h : offered_run logic_init ops) (hu : ui_offered_run ui_state_init uops) :
    ValidSelection (run_ops ops) ∧ UiValidSelection (run_ui_select_ops uops) :=
  ⟨ValidSelection_run ops logic_init ⟨0, 0, rfl, rfl⟩ h,
   UiValidSelection_run uops ui_state_init
     (show 0 < ui_config_get_function_count 0 by decide) hu⟩

/-- C15, witness: select Sound and then its function "调节座椅"; select category 1 and then
index 2. -/
theorem C15_selection_valid_when_offered_witness :
    ValidSelection (run_ops [LogicOp.set_category (cstr "声音 (Sound)"),
      LogicOp.set_function (cstr "调节座椅")]) ∧
    UiValidSelection (run_ui_select_ops [UiSelectOp.set_category 1,
      UiSelectOp.set_function 2]) :=
  C15_selection_valid_when_offered
    [LogicOp.set_category (cstr "声音 (Sound)"), LogicOp.set_function (cstr "调节座椅")]
    [UiSelectOp.set_category 1, UiSelectOp.set_function 2]
    ⟨⟨1, rfl⟩, ⟨1, 2, by decide, rfl⟩, trivial⟩
    ⟨trivial, show 2 < ui_config_get_function_count 1 by decide, trivial⟩

/-- C15, counterexample: `logic_set_function` with a name that is no function of the
selected category, and `ui_state_set_function(7)` with three functions in the category, both
store their argument: the selected function changes and is not valid. -/
theorem C15_counterexample :
    (logic_set_function logic_init (cstr "x")).selectedFunction = cstr "x" ∧
    (logic_set_function logic_init (cstr "x")).selectedFunction ≠ logic_init.selectedFunction ∧
    ¬ ValidSelection (logic_set_function logic_init (cstr "x")) ∧
    ui_config_get_function_count ui_state_init.selected_category = 3 ∧
    (ui_state_set_function ui_state_init 7).selected_function = 7 ∧
    (ui_state_set_function ui_state_init 7).selected_function
      ≠ ui_state_init.selected_function ∧
    ¬ UiValidSelection (ui_state_set_function ui_state_init 7) := by
  unfold ValidSelection UiValidSelection
  decide

/-- C16. Changing the category selects the first function of the new category, whatever was
selected before. For `c < 3`, `ui_state_set_category(c)` yields `selected_category = c` and
`selected_function = 0`; `logic_set_category` with the name of category `c` yields that name
as `selectedCategory` and the index-0 function name of `c` ("启动发动机", "开启车灯",
"激活ABS") as `selectedFunction`. Neither touches the log. -/
theorem C16_category_resets_function :
    (∀ (g : ui_state_t) (c : Nat), c < 3 →
      (ui_state_set_category g c).selected_category = c ∧
      (ui_state_set_category g c).selected_function = 0 ∧
      (ui_state_set_category g c).log_count = g.log_count) ∧
    (∀ (s : SignalPanelState) (c : Fin 3),
      (logic_set_category s (categories c)).selectedCategory = categories c ∧
      (logic_set_category s (categories c)).selectedFunction = function_names c 0 ∧
      (logic_set_category s (categories c)).log_count = s.log_count ∧
      (logic_set_category s (categories c)).next_log_id = s.next_log_id ∧
      (logic_set_category s (categories c)).logs = s.logs) ∧
    function_names 0 0 = cstr "启动发动机" ∧
    function_names 1 0 = cstr "开启车灯" ∧
    function_names 2 0 = cstr "激活ABS" := by
  refine ⟨?_, ?_, rfl, rfl, rfl⟩
  · intro g c hc
    have h : c < CATEGORY_COUNT := hc
    simp only [ui_state_set_category, if_pos h]
    exact ⟨trivial, trivial, trivial⟩
  · intro s c
    exact ⟨(logic_set_category_selects s c).1, (logic_set_category_selects s c).2, rfl, rfl,
      rfl⟩

/-- C16, witness: with function 2 selected, category 2 is chosen: the function index is 0
again. -/
theorem C16_category_resets_function_witness :
    (ui_state_set_function ui_state_init 2).selected_function = 2 ∧
    (ui_state_set_category (ui_state_set_function ui_state_init 2) 2).selected_category = 2 ∧
    (ui_state_set_category (ui_state_set_function ui_state_init 2) 2).selected_function = 0 :=
  ⟨rfl,
   (C16_category_resets_function.1 (ui_state_set_function ui_state_init 2) 2 (by decide)).1,
   (C16_category_resets_function.1 (ui_state_set_function ui_state_init 2) 2 (by decide)).2.1⟩

/-- C17. `ui_config_get_function_name(c, i)` is the empty string exactly when `c >= 3` or
`i >= ui_config_get_function_count(c)`; otherwise it is the `i`-th function name of category
`c`, listed here; `ui_config_get_function_count` is 3 for the categories 0, 1, 2 and 0 for
every other value. -/
theorem C17_function_name_and_count (c i : Nat) :
    (ui_config_get_function_name c i = [] ↔ (c ≥ 3 ∨ i ≥ ui_config_get_function_count c)) ∧
    ui_config_get_function_count 0 = 3 ∧
    ui_config_get_function_count 1 = 3 ∧
    ui_config_get_function_count 2 = 3 ∧
    (c ≥ 3 → ui_config_get_function_count c = 0) ∧
    ui_config_get_function_name 0 0 = cstr "启动发动机" ∧
    ui_config_get_function_name 0 1 = cstr "油门控制" ∧
    ui_config_get_function_name 0 2 = cstr "刹车控制" ∧
    ui_config_get_function_name 1 0 = cstr "开启车灯" ∧
    ui_config_get_function_name 1 1 = cstr "解锁车门" ∧
    ui_config_get_function_name 1 2 = cstr "调节座椅" ∧
    ui_config_get_function_name 2 0 = cstr "激活ABS" ∧
    ui_config_get_function_name 2 1 = cstr "气囊检测" ∧
    ui_config_get_function_name 2 2 = cstr "胎压监测" := by
  refine ⟨?_, rfl, rfl, rfl, ?_, rfl, rfl, rfl, rfl, rfl, rfl, rfl, rfl, rfl⟩
  · rcases c with _ | _ | _ | c
    · rcases i with _ | _ | _ | i
      · decide
      · decide
      · decide
      · simp [ui_config_get_function_name, ui_config_get_function_count,
          UI_FUNCTIONS_DISPLAY_COUNT, UI_FUNCTIONS_DISPLAY]
    · rcases i with _ | _ | _ | i
      · decide
      · decide
      · decide
      · simp [ui_config_get_function_name, ui_config_get_function_count,
          UI_FUNCTIONS_SOUND_COUNT, UI_FUNCTIONS_SOUND]
    · rcases i with _ | _ | _ | i
      · decide
      · decide
      · decide
      · simp [ui_config_get_function_name, ui_config_get_function_count,
          UI_FUNCTIONS_INSPECTION_COUNT, UI_FUNCTIONS_INSPECTION]
    · simp [ui_config_get_function_name]
  · intro hc
    rcases c with _ | _ | _ | c
    · omega
    · omega
    · omega
    · rfl

/-- C17, witness: category 5 has no functions and no names. -/
theorem C17_function_name_and_count_witness :
    ui_config_get_function_count 5 = 0 ∧ ui_config_get_function_name 5 0 = [] :=
  ⟨(C17_function_name_and_count 5 0).2.2.2.2.1 (by decide),
   (C17_function_name_and_count 5 0).1.2 (Or.inl (by decide))⟩

/-- C18. `logic_set_scene(s, scene)` stores the first 7 bytes of `scene` (all of it when it
has at most 7 bytes) in `selectedScene`. When `isConnected != 0` it appends exactly one TX
entry whose message is the stored scene name; when `isConnected = 0` it leaves `log_count`,
`next_log_id` and the entries unchanged. The transmit flags are unchanged in both cases. -/
theorem C18_set_scene (s : SignalPanelState) (scene : Bytes) (tmv : Tm) :
    (logic_set_scene s scene tmv).selectedScene = scene.take 7 ∧
    (scene.length ≤ 7 → (logic_set_scene s scene tmv).selectedScene = scene) ∧
    (s.isConnected ≠ 0 →
      Appends s (logic_set_scene s scene tmv) LogType.LOG_TX
        (logic_set_scene s scene tmv).selectedScene tmv) ∧
    (s.isConnected = 0 →
      (logic_set_scene s scene tmv).log_count = s.log_count ∧
      (logic_set_scene s scene tmv).next_log_id = s.next_log_id ∧
      (logic_set_scene s scene tmv).logs = s.logs) ∧
    (logic_set_scene s scene tmv).isTransmitting = s.isTransmitting ∧
    (logic_set_scene s scene tmv).isRepeating = s.isRepeating := by
  by_cases hc : s.isConnected = 0
  · have e : logic_set_scene s scene tmv = { s with selectedScene := snprintf_s 8 scene } := by
      simp [logic_set_scene, hc]
    rw [e]
    refine ⟨rfl, ?_, fun h => absurd hc h, fun _ => ⟨rfl, rfl, rfl⟩, rfl, rfl⟩
    intro hlen
    exact List.take_of_length_le hlen
  · have e : logic_set_scene s scene tmv =
        logic_add_log { s with selectedScene := snprintf_s 8 scene } LogType.LOG_TX
          (snprintf_s 8 scene) tmv := by
      simp [logic_set_scene, hc]
    rw [e]
    refine ⟨rfl, ?_, ?_, fun h => absurd h hc, rfl, rfl⟩
    · intro hlen
      exact List.take_of_length_le hlen
    · intro _
      have h := logic_add_log_appends { s with selectedScene := snprintf_s 8 scene }
        LogType.LOG_TX (snprintf_s 8 scene) tmv
      refine Appends_of_msg_eq h ?_
      show List.take 159 (List.take 7 scene) = List.take 7 scene
      rw [List.take_take]
      congr 1

/-- C18, witness: the calls of `tests/test_logic.c`: connect, then select scene "ACC"; and a
scene name of nine bytes on a disconnected state. -/
theorem C18_set_scene_witness :
    (logic_set_scene (logic_toggle_connected logic_init) (cstr "ACC") noon).log_count = 1 ∧
    (logic_set_scene logic_init (cstr "ABCDEFGHI") noon).log_count = 0 ∧
    (logic_set_scene logic_init (cstr "ABCDEFGHI") noon).selectedScene = cstr "ABCDEFG" :=
  ⟨(C18_set_scene (logic_toggle_connected logic_init) (cstr "ACC") noon).2.2.1
      (by decide) |>.1,
   (C18_set_scene logic_init (cstr "ABCDEFGHI") noon).2.2.2.1 rfl |>.1,
   (C18_set_scene logic_init (cstr "ABCDEFGHI") noon).1.trans (by decide)⟩

/-- C19. `logic_add_log` is total: for every state, kind and text it stores exactly one
entry, of the given kind, whose message is the text itself when the text has at most 159
bytes and its first 159 bytes otherwise; the stored message never has more than 159 bytes. -/
theorem C19_add_log_truncates (s : SignalPanelState) (type : LogType) (msg : Bytes)
    (tmv : Tm) :
    Appends s (logic_add_log s type msg tmv) type
      (if msg.length ≤ 159 then msg else msg.take 159) tmv ∧
    (if msg.length ≤ 159 then msg else msg.take 159).length ≤ 159 := by
  constructor
  · refine Appends_of_msg_eq (logic_add_log_appends s type msg tmv) ?_
    split
    · next h => exact List.take_of_length_le h
    · rfl
  · split
    · next h => exact h
    · simp

/-- C19, witness: a text of 200 bytes is stored as its first 159 bytes, at position 0 of the
empty log. -/
theorem C19_add_log_truncates_witness :
    ((logic_add_log logic_init LogType.LOG_RX (List.replicate 200 65) noon).logs 0).message
      = List.replicate 159 65 ∧
    ((logic_add_log logic_init LogType.LOG_RX (List.replicate 200 65) noon).logs 0).type
      = LogType.LOG_RX := by
  obtain ⟨i, hi, he⟩ := (C19_add_log_truncates logic_init LogType.LOG_RX
    (List.replicate 200 65) noon).1.2.2.2 (by decide)
  have hi0 : i = 0 := by
    apply Fin.ext
    have : (i.val : Int) = 0 := hi
    have h0 : ((0 : Fin 256).val : Int) = 0 := rfl
    omega
  rw [hi0] at he
  rw [he]
  refine ⟨?_, rfl⟩
  dsimp only
  rw [List.length_replicate, if_neg (by decide), List.take_replicate]
  rfl

/-- C20. `logic_clear_logs` sets `log_count` to 0, so that the next append is written at
position 0 (with the next id, not a reused one), and changes nothing else: `next_log_id`,
the stored entries, the flags, the selection and the manual fields are as before. It is
idempotent, and on an empty log it is the identity. -/
theorem C20_clear_logs (s : SignalPanelState) :
    (logic_clear_logs s).log_count = 0 ∧
    (logic_clear_logs s).next_log_id = s.next_log_id ∧
    (logic_clear_logs s).logs = s.logs ∧
    (logic_clear_logs s).isTransmitting = s.isTransmitting ∧
    (logic_clear_logs s).isRepeating = s.isRepeating ∧
    (logic_clear_logs s).isConnected = s.isConnected ∧
    (logic_clear_logs s).viewMode = s.viewMode ∧
    (logic_clear_logs s).selectedScene = s.selectedScene ∧
    (logic_clear_logs s).selectedCategory = s.selectedCategory ∧
    (logic_clear_logs s).selectedFunction = s.selectedFunction ∧
    (logic_clear_logs s).manualId = s.manualId ∧
    (logic_clear_logs s).manualData = s.manualData ∧
    (logic_clear_logs s).manualRepeat = s.manualRepeat ∧
    (logic_clear_logs s).manualInterval = s.manualInterval ∧
    logic_clear_logs (logic_clear_logs s) = logic_clear_logs s ∧
    (s.log_count = 0 → logic_clear_logs s = s) ∧
    (∀ (type : LogType) (msg : Bytes) (tmv : Tm),
      (logic_add_log (logic_clear_logs s) type msg tmv).logs 0 =
        { id := s.next_log_id, type := type, timestamp := make_timestamp tmv,
          message := msg.take 159 } ∧
      (logic_add_log (logic_clear_logs s) type msg tmv).log_count = 1) := by
  refine ⟨rfl, rfl, rfl, rfl, rfl, rfl, rfl, rfl, rfl, rfl, rfl, rfl, rfl, rfl, rfl, ?_, ?_⟩
  · intro h
    cases s
    simp only [logic_clear_logs] at h ⊢
    subst h
    rfl
  · intro type msg tmv
    exact ⟨rfl, rfl⟩

/-- C20, witness: clearing the freshly initialised (empty) log changes nothing. -/
theorem C20_clear_logs_witness : logic_clear_logs logic_init = logic_init :=
  (C20_clear_logs logic_init).2.2.2.2.2.2.2.2.2.2.2.2.2.2.2.1 rfl

/-! ### The order of the stored entries -/

/-- `logic_add_log` keeps the bookkeeping of the ids while the counter stays below 2^31. -/
theorem IdsInv_add_log (s : SignalPanelState) (n : Nat) (type : LogType) (msg : Bytes)
    (tmv : Tm) (h : IdsInv s n) (hn : n + 1 < 2147483648) :
    IdsInv (logic_add_log s type msg tmv) (n + 1) := by
  obtain ⟨hid, h0, h256, hle, hent⟩ := h
  have hnext : (logic_add_log s type msg tmv).next_log_id = ((n + 1 : Nat) : Int) := by
    show wrap_int (s.next_log_id + 1) = _
    rw [hid, wrap_int_of_range _ (by omega) (by omega)]
    simp
  by_cases hfull : s.log_count = 256
  · have hslot : log_slot s = 0 := by simp [log_slot, hfull]
    have hcount : (logic_add_log s type msg tmv).log_count = 1 := by
      show log_slot s + 1 = 1
      rw [hslot]
      rfl
    refine ⟨hnext, by rw [hcount]; omega, by rw [hcount]; omega, by rw [hcount]; omega, ?_⟩
    intro i hi
    rw [hcount] at hi ⊢
    have hi0 : (i.val : Int) = log_slot s := by rw [hslot]; omega
    rw [logic_add_log_read s type msg tmv i hi0, new_entry, hid]
    simp only [Nat.cast_add, Nat.cast_one]
    omega
  · have hslot : log_slot s = s.log_count := log_slot_of_lt s (by omega)
    have hcount : (logic_add_log s type msg tmv).log_count = s.log_count + 1 := by
      show log_slot s + 1 = _
      rw [hslot]
    refine ⟨hnext, by rw [hcount]; omega, by rw [hcount]; omega, by rw [hcount]; omega, ?_⟩
    intro i hi
    rw [hcount] at hi ⊢
    by_cases hlast : (i.val : Int) = s.log_count
    · rw [logic_add_log_read s type msg tmv i (by rw [hslot]; exact hlast), new_entry, hid]
      simp only [Nat.cast_add, Nat.cast_one]
      omega
    · rw [logic_add_log_other s type msg tmv i (by rw [hslot]; exact hlast),
        hent i (by omega)]
      simp only [Nat.cast_add, Nat.cast_one]
      omega

/-- Every operation keeps the bookkeeping of the ids; the counter advances by one exactly
when the operation appends. -/
theorem IdsInv_step (s : SignalPanelState) (n : Nat) (op : LogicOp) (h : IdsInv s n)
    (hn : n + (if op.appends s then 1 else 0) < 2147483648) :
    IdsInv (op.run s) (n + (if op.appends s then 1 else 0)) := by
  cases op with
  | add_log type msg tmv => exact IdsInv_add_log s n type msg tmv h hn
  | set_scene scene tmv =>
    by_cases hc : s.isConnected = 0
    · have e : LogicOp.run s (LogicOp.set_scene scene tmv) =
          { s with selectedScene := snprintf_s 8 scene } := by
        simp [LogicOp.run, logic_set_scene, hc]
      have ea : LogicOp.appends s (LogicOp.set_scene scene tmv) = false := by
        simp [LogicOp.appends, hc]
      rw [e, ea]
      exact h
    · have e : LogicOp.run s (LogicOp.set_scene scene tmv) =
          logic_add_log { s with selectedScene := snprintf_s 8 scene } LogType.LOG_TX
            (snprintf_s 8 scene) tmv := by
        simp [LogicOp.run, logic_set_scene, hc]
      have ea : LogicOp.appends s (LogicOp.set_scene scene tmv) = true := by
        simp [LogicOp.appends, hc]
      rw [ea] at hn
      rw [e, ea]
      exact IdsInv_add_log { s with selectedScene := snprintf_s 8 scene } n _ _ tmv h hn
  | set_category category => exact h
  | set_function func => exact h
  | toggle_connected => exact h
  | clear_logs =>
    obtain ⟨hid, _, _, _, _⟩ := h
    refine ⟨hid, le_refl _, ?_, ?_, ?_⟩
    · show (0 : Int) ≤ 256
      decide
    · show (0 : Int) ≤ _
      exact Int.ofNat_nonneg _
    · intro i hi
      have : (i.val : Int) < 0 := hi
      omega
  | start_repeating_auto tmv =>
    exact IdsInv_add_log { s with isTransmitting := 1, isRepeating := 1 } n _ _ tmv h hn
  | repeat_auto_tick tmv => exact IdsInv_add_log s n _ _ tmv h hn
  | send_auto_once tmv => exact IdsInv_add_log { s with isTransmitting := 1 } n _ _ tmv h hn
  | send_auto_rx tmv =>
    exact IdsInv_add_log s n LogType.LOG_RX (cstr "CAN ID: 0x123 | Data: [0x01, 0x02, 0x03]")
      tmv h hn
  | start_repeating_manual tmv =>
    exact IdsInv_add_log { s with isTransmitting := 1, isRepeating := 1 } n _ _ tmv h hn
  | repeat_manual_tick tmv => exact IdsInv_add_log s n _ _ tmv h hn
  | send_manual_once tmv => exact IdsInv_add_log { s with isTransmitting := 1 } n _ _ tmv h hn
  | send_manual_rx tmv => exact IdsInv_add_log s n LogType.LOG_RX (cstr "ACK: OK") tmv h hn
  | stop tmv =>
    exact IdsInv_add_log { s with isTransmitting := 0, isRepeating := 0 } n _ _ tmv h hn

theorem IdsInv_run (ops : List LogicOp) :
    ∀ (s : SignalPanelState) (n : Nat), IdsInv s n → n + count_appends s ops < 2147483648 →
      IdsInv (ops.foldl LogicOp.run s) (n + count_appends s ops) := by
  induction ops with
  | nil => intro s n h _; exact h
  | cons op ops ih =>
    intro s n h hn
    simp only [count_appends] at hn ⊢
    have hstep := IdsInv_step s n op h (by omega)
    have := ih (op.run s) (n + (if op.appends s then 1 else 0)) hstep (by omega)
    rw [Nat.add_assoc] at this
    exact this

/-- The loop over the first `k` positions reads `k` entries, with consecutive ids. -/
theorem read_logs_ids (s : SignalPanelState) (n : Nat) (h : IdsInv s n) :
    ∀ k : Nat, (k : Int) ≤ s.log_count →
      (read_logs s k).length = k ∧
      (read_logs s k).map (fun m => m.id) =
        (List.range k).map (fun (j : Nat) => s.next_log_id - s.log_count + (j : Int)) := by
  obtain ⟨hid, _, h256, _, hent⟩ := h
  intro k
  induction k with
  | zero => intro _; exact ⟨rfl, rfl⟩
  | succ k ih =>
    intro hk
    have hk1 : (k : Int) < s.log_count := by omega
    have hlt : k < 256 := by omega
    have hat : log_at s k = some (s.logs ⟨k, hlt⟩) := by simp [log_at, hlt]
    obtain ⟨hlen, hids⟩ := ih (by omega)
    constructor
    · simp [read_logs, hat, hlen]
    · have he := hent ⟨k, hlt⟩ hk1
      simp only [read_logs, hat, Option.toList_some, List.map_append, List.map_cons,
        List.map_nil, hids, List.range_succ]
      rw [he, hid]

/-- C21. In every state reached from `logic_init` by `logic_*` operations that append fewer
than 2^31 entries in all (beyond that `next_log_id++` overflows), iterating the positions
`0 .. log_count - 1`, as `refresh_logs` does, reads exactly `log_count` entries; the entry at
position `i < log_count` has id `next_log_id - log_count + i`, so the ids read are
consecutive and strictly increasing, oldest first. When connected with a non-empty log,
`refresh_logs` shows one line per entry read; it is a function of the state and writes
nothing to it. -/
theorem C21_log_iteration_order (ops : List LogicOp)
    (h : count_appends logic_init ops < 2147483648) :
    ((log_entries (run_ops ops)).length : Int) = (run_ops ops).log_count ∧
    (∀ i : Fin 256, (i.val : Int) < (run_ops ops).log_count →
      ((run_ops ops).logs i).id =
        (run_ops ops).next_log_id - (run_ops ops).log_count + i.val) ∧
    (log_entries (run_ops ops)).map (fun m => m.id) =
      (List.range (run_ops ops).log_count.toNat).map
        (fun (j : Nat) => (run_ops ops).next_log_id - (run_ops ops).log_count + (j : Int)) ∧
    List.Pairwise (fun a b : Int => a < b) ((log_entries (run_ops ops)).map (fun m => m.id)) ∧
    ((run_ops ops).isConnected ≠ 0 → (run_ops ops).log_count ≠ 0 →
      refresh_logs (run_ops ops) = (log_entries (run_ops ops)).map log_line ∧
      ((refresh_logs (run_ops ops)).length : Int) = (run_ops ops).log_count) := by
  have hinit : IdsInv logic_init 0 := by
    refine ⟨rfl, le_refl _, ?_, le_refl _, ?_⟩
    · show (0 : Int) ≤ 256
      decide
    · intro i hi
      have : (i.val : Int) < 0 := hi
      omega
  have hinv : IdsInv (run_ops ops) (0 + count_appends logic_init ops) :=
    IdsInv_run ops logic_init 0 hinit (by omega)
  have hnat : ((run_ops ops).log_count.toNat : Int) = (run_ops ops).log_count :=
    Int.toNat_of_nonneg hinv.2.1
  have hread := read_logs_ids (run_ops ops) _ hinv (run_ops ops).log_count.toNat
    (le_of_eq hnat)
  have hlen : ((log_entries (run_ops ops)).length : Int) = (run_ops ops).log_count := by
    show ((read_logs (run_ops ops) (run_ops ops).log_count.toNat).length : Int) = _
    rw [hread.1, hnat]
  have hids : (log_entries (run_ops ops)).map (fun m => m.id) =
      (List.range (run_ops ops).log_count.toNat).map
        (fun (j : Nat) => (run_ops ops).next_log_id - (run_ops ops).log_count + (j : Int)) :=
    hread.2
  refine ⟨hlen, ?_, hids, ?_, ?_⟩
  · intro i hi
    rw [hinv.2.2.2.2 i hi, hinv.1]
  · rw [hids]
    refine List.Pairwise.map _ ?_ (List.pairwise_lt_range _)
    intro a b hab
    show _ + (a : Int) < _ + (b : Int)
    omega
  · intro hc hz
    have e : refresh_logs (run_ops ops) = (log_entries (run_ops ops)).map log_line := by
      simp [refresh_logs, hc, hz]
    refine ⟨e, ?_⟩
    rw [e, List.length_map]
    exact hlen

/-- C21, witness: connect, select a scene (one entry), send and acknowledge (two more): the
ids read out are 0, 1, 2 and three lines are shown. -/
theorem C21_log_iteration_order_witness :
    (log_entries (run_ops [LogicOp.toggle_connected, LogicOp.set_scene (cstr "ACC") noon,
      LogicOp.send_auto_once noon, LogicOp.send_auto_rx noon])).map (fun m => m.id)
      = [0, 1, 2] ∧
    ((refresh_logs (run_ops [LogicOp.toggle_connected, LogicOp.set_scene (cstr "ACC") noon,
      LogicOp.send_auto_once noon, LogicOp.send_auto_rx noon])).length : Int) = 3 :=
  ⟨(C21_log_iteration_order [LogicOp.toggle_connected, LogicOp.set_scene (cstr "ACC") noon,
      LogicOp.send_auto_once noon, LogicOp.send_auto_rx noon] (by decide)).2.2.1.trans
      (by decide),
   ((C21_log_iteration_order [LogicOp.toggle_connected, LogicOp.set_scene (cstr "ACC") noon,
      LogicOp.send_auto_once noon, LogicOp.send_auto_rx noon] (by decide)).2.2.2.2
      (by decide) (by decide)).2.trans (by decide)⟩

/-! ### The manual repeat interval -/

/-- Of the events of the panel only `on_manual_interval_changed` writes `manualInterval`. -/
theorem PanelEvent.run_manualInterval (w : Panel) (e : PanelEvent)
    (h : 100 ≤ w.ui.state.manualInterval) : 100 ≤ (e.run w).ui.state.manualInterval := by
  cases e with
  | connect_sw => exact h
  | scene_btn scene tmv =>
    simp only [PanelEvent.run, on_scene_btn, Panel.set_state, logic_set_scene]
    split <;> exact h
  | category_changed sel => exact h
  | function_changed sel => exact h
  | manual_id_changed txt => exact h
  | manual_data_changed txt => exact h
  | manual_repeat_sw checked => exact h
  | manual_interval_changed txt =>
    show 100 ≤ (if atoi txt < 100 then 100 else atoi txt)
    split
    · exact le_refl _
    · omega
  | goto_auto => exact h
  | goto_manual => exact h
  | transmit tmv =>
    simp only [PanelEvent.run, on_transmit]
    split <;> split <;>
      simp only [schedule_rx_delay_eq, arm_repeat_eq, update_transmit_button_state] <;>
      exact h
  | stop tmv =>
    simp only [PanelEvent.run, on_stop_eq]
    exact h
  | clear => exact h
  | timer_fire t tmv =>
    simp only [PanelEvent.run, lv_timer_fire]
    split
    · exact h
    · split
      · simp only [repeat_tick_cb]
        split <;> (rw [schedule_rx_delay_eq]; exact h)
      · exact h
      · exact h

/-- C22 (as the code has it). The clamp to 100 ms is in the callbacks that read the text
area, not in the setter. `on_manual_interval_changed` of the port panel stores exactly
`max(v, 100)` for `v = atoi(txt)` and changes no other field of the state.
`interval_textarea_cb` of the UI state stores exactly `max(u, 100)` for `u` the `uint32_t`
that `atoi(text)` converts to, and keeps `manual_repeat`. `ui_state_set_manual_repeat` stores
the interval it is given, whatever it is, and `repeat_switch_cb` passes the stored interval
back. Hence in every state of the port panel, and in every state reached from `ui_state_init`
through `interval_textarea_cb` and `repeat_switch_cb` (the two callers of
`ui_state_set_manual_repeat`), the stored manual interval is at least 100. On the texts
"50", "100", "250" and "-5": the port panel stores 100, 100, 250 and 100, the UI state 100,
100, 250 and 4294967291 (the `uint32_t` of -5). -/
theorem C22_interval_clamped_by_callbacks :
    (∀ (w0 : Panel) (evs : List PanelEvent),
      100 ≤ (run_panel w0 evs).ui.state.manualInterval) ∧
    (∀ ops : List UiIntervalOp, 100 ≤ (run_ui_interval_ops ops).manual_interval) ∧
    (∀ (g : ui_state_t) (text : Bytes), 100 ≤ (interval_textarea_cb g text).manual_interval) ∧
    (∀ (w : Panel) (txt : Bytes),
      100 ≤ (on_manual_interval_changed w txt).ui.state.manualInterval) ∧
    (∀ (w : Panel) (txt : Bytes),
      (on_manual_interval_changed w txt).ui.state.manualInterval = max (atoi txt) 100 ∧
      on_manual_interval_changed w txt =
        w.set_state { w.ui.state with manualInterval := max (atoi txt) 100 }) ∧
    (∀ (g : ui_state_t) (text : Bytes),
      (interval_textarea_cb g text).manual_interval = max (to_uint32 (atoi text)) 100 ∧
      interval_textarea_cb g text =
        { g with manual_interval := max (to_uint32 (atoi text)) 100 }) ∧
    (∀ (g : ui_state_t) (repeating : Bool) (interval : Nat),
      (ui_state_set_manual_repeat g repeating interval).manual_interval = interval ∧
      (ui_state_set_manual_repeat g repeating interval).manual_repeat = repeating) ∧
    (∀ (g : ui_state_t) (is_checked : Bool),
      (repeat_switch_cb g is_checked).manual_interval = g.manual_interval ∧
      (repeat_switch_cb g is_checked).manual_repeat = is_checked) ∧
    ((on_manual_interval_changed panel_zero (cstr "50")).ui.state.manualInterval = 100 ∧
     (on_manual_interval_changed panel_zero (cstr "100")).ui.state.manualInterval = 100 ∧
     (on_manual_interval_changed panel_zero (cstr "250")).ui.state.manualInterval = 250 ∧
     (on_manual_interval_changed panel_zero (cstr "-5")).ui.state.manualInterval = 100) ∧
    ((interval_textarea_cb ui_state_init (cstr "50")).manual_interval = 100 ∧
     (interval_textarea_cb ui_state_init (cstr "100")).manual_interval = 100 ∧
     (interval_textarea_cb ui_state_init (cstr "250")).manual_interval = 250 ∧
     (interval_textarea_cb ui_state_init (cstr "-5")).manual_interval = 4294967291) := by
  have hint : ∀ a : Int, (if a < 100 then 100 else a) = max a 100 := by
    intro a
    split
    · exact (max_eq_right (by omega)).symm
    · exact (max_eq_left (by omega)).symm
  have hnat : ∀ a : Nat, (if a < 100 then 100 else a) = max a 100 := by
    intro a
    split
    · exact (max_eq_right (by omega)).symm
    · exact (max_eq_left (by omega)).symm
  have hcb : ∀ (g : ui_state_t) (text : Bytes),
      100 ≤ (interval_textarea_cb g text).manual_interval := by
    intro g text
    show 100 ≤ (if to_uint32 (atoi text) < 100 then 100 else to_uint32 (atoi text))
    split
    · exact le_refl _
    · omega
  refine ⟨?_, ?_, hcb, ?_, ?_, ?_, ?_, ?_, ?_, ?_⟩
  · intro w0 evs
    exact foldl_invariant PanelEvent.run (fun w => 100 ≤ w.ui.state.manualInterval)
      (fun w e hw => PanelEvent.run_manualInterval w e hw) evs (signal_panel_create w0)
      (show (100 : Int) ≤ 1000 by decide)
  · intro ops
    refine foldl_invariant UiIntervalOp.run (fun g => 100 ≤ g.manual_interval) ?_ ops
      ui_state_init (show 100 ≤ 1000 by decide)
    intro g op hg
    cases op with
    | repeat_switch is_checked => exact hg
    | interval_textarea text => exact hcb g text
  · intro w txt
    show 100 ≤ (if atoi txt < 100 then 100 else atoi txt)
    split
    · exact le_refl _
    · omega
  · intro w txt
    have e : on_manual_interval_changed w txt =
        w.set_state { w.ui.state with manualInterval := max (atoi txt) 100 } := by
      unfold on_manual_interval_changed
      rw [hint]
    exact ⟨by rw [e]; rfl, e⟩
  · intro g text
    have e : interval_textarea_cb g text =
        { g with manual_interval := max (to_uint32 (atoi text)) 100 } := by
      unfold interval_textarea_cb ui_state_set_manual_repeat
      rw [hnat]
    exact ⟨by rw [e], e⟩
  · intro g repeating interval
    exact ⟨rfl, rfl⟩
  · intro g is_checked
    exact ⟨rfl, rfl⟩
  · decide
  · decide

/-- C22, counterexample: `ui_state_set_manual_repeat(false, 5)` after `ui_state_init` stores
the interval 5. -/
theorem C22_counterexample :
    (ui_state_set_manual_repeat ui_state_init false 5).manual_interval = 5 ∧
    ¬ 100 ≤ (ui_state_set_manual_repeat ui_state_init false 5).manual_interval := by
  decide

/-! ### At most one timer of each kind -/

theorem cancel_timer_handles_nodup {timers : List lv_timer_t} (x : Option Nat)
    (h : (timers.map (fun t => t.handle)).Nodup) :
    ((cancel_timer timers x).map (fun t => t.handle)).Nodup := by
  cases x with
  | none => exact h
  | some t =>
    exact List.Nodup.sublist (List.Sublist.map _ (List.filter_sublist _)) h

theorem append_handles_nodup {timers : List lv_timer_t} {next : Nat} (t : lv_timer_t)
    (hlt : ∀ x ∈ timers, x.handle < next) (ht : t.handle = next)
    (h : (timers.map (fun x => x.handle)).Nodup) :
    ((timers ++ [t]).map (fun x => x.handle)).Nodup := by
  rw [List.map_append, List.map_cons, List.map_nil]
  refine List.Nodup.append h (List.nodup_singleton _) ?_
  intro a ha hb
  rw [List.mem_singleton] at hb
  obtain ⟨x, hx, rfl⟩ := List.mem_map.1 ha
  have := hlt x hx
  omega

theorem OneEach_cancel {timers : List lv_timer_t} {next : Nat} {rep rx : Option Nat}
    (h : OneEach timers next rep rx) (x : Option Nat) :
    OneEach (cancel_timer timers x) next rep rx :=
  ⟨fun t ht => h.1 t (mem_cancel_timer ht).1, cancel_timer_handles_nodup x h.2.1,
   fun t ht => h.2.2.1 t (mem_cancel_timer ht).1,
   fun t ht => h.2.2.2 t (mem_cancel_timer ht).1⟩

/-- `schedule_rx_delay`: cancel what `timer_rx_delay` refers to, then create the ack timer. -/
theorem OneEach_schedule {timers : List lv_timer_t} {next : Nat} {rep rx : Option Nat}
    (h : OneEach timers next rep rx) (cb : TimerCb) (period : Nat)
    (hcb : cb ≠ TimerCb.repeat_tick_cb) :
    OneEach (cancel_timer timers rx ++ [{ handle := next, timer_cb := cb, period := period }])
      (next + 1) rep (some next) := by
  have hc := OneEach_cancel h rx
  refine ⟨?_, append_handles_nodup _ hc.1 rfl hc.2.1, ?_, ?_⟩
  · intro t ht
    rcases List.mem_append.1 ht with ht | ht
    · exact Nat.lt_succ_of_lt (hc.1 t ht)
    · rw [List.mem_singleton.1 ht]
      exact Nat.lt_succ_self next
  · intro t ht hrep
    rcases List.mem_append.1 ht with ht | ht
    · exact hc.2.2.1 t ht hrep
    · rw [List.mem_singleton.1 ht] at hrep
      exact absurd hrep hcb
  · intro t ht hne
    rcases List.mem_append.1 ht with ht | ht
    · exact absurd (h.2.2.2 t (mem_cancel_timer ht).1 hne) (mem_cancel_timer ht).2
    · rw [List.mem_singleton.1 ht]

/-- The lines of `on_transmit` that arm the periodic timer: cancel what `timer_repeat`
refers to, then create the periodic timer. -/
theorem OneEach_arm {timers : List lv_timer_t} {next : Nat} {rep rx : Option Nat}
    (h : OneEach timers next rep rx) (period : Nat) :
    OneEach (cancel_timer timers rep ++
      [{ handle := next, timer_cb := TimerCb.repeat_tick_cb, period := period }]) (next + 1)
      (some next) rx := by
  have hc := OneEach_cancel h rep
  refine ⟨?_, append_handles_nodup _ hc.1 rfl hc.2.1, ?_, ?_⟩
  · intro t ht
    rcases List.mem_append.1 ht with ht | ht
    · exact Nat.lt_succ_of_lt (hc.1 t ht)
    · rw [List.mem_singleton.1 ht]
      exact Nat.lt_succ_self next
  · intro t ht hrep
    rcases List.mem_append.1 ht with ht | ht
    · exact absurd (h.2.2.1 t (mem_cancel_timer ht).1 hrep) (mem_cancel_timer ht).2
    · rw [List.mem_singleton.1 ht]
  · intro t ht hne
    rcases List.mem_append.1 ht with ht | ht
    · exact hc.2.2.2 t ht hne
    · rw [List.mem_singleton.1 ht] at hne
      exact absurd rfl hne

theorem OneEach_stop {timers : List lv_timer_t} {next : Nat} {rep rx : Option Nat}
    (h : OneEach timers next rep rx) : OneEach (cancel_timer timers rep) next none rx := by
  have hc := OneEach_cancel h rep
  refine ⟨hc.1, hc.2.1, ?_, hc.2.2.2⟩
  intro t ht hrep
  exact absurd (h.2.2.1 t (mem_cancel_timer ht).1 hrep) (mem_cancel_timer ht).2

theorem PanelOneEach_schedule (w : Panel) (ms : Int) (is_manual : Bool)
    (h : PanelOneEach w) : PanelOneEach (schedule_rx_delay w ms is_manual) := by
  rw [schedule_rx_delay_eq]
  exact OneEach_schedule h _ _ (by cases is_manual <;> simp)

theorem PanelOneEach_arm (w : Panel) (period : Nat) (h : PanelOneEach w) :
    PanelOneEach (arm_repeat w period) := by
  rw [arm_repeat_eq]
  exact OneEach_arm h period

theorem PanelOneEach_step (w : Panel) (e : PanelEvent) (h : PanelOneEach w) :
    PanelOneEach (e.run w) := by
  cases e with
  | connect_sw => exact h
  | scene_btn scene tmv => exact h
  | category_changed sel => exact h
  | function_changed sel => exact h
  | manual_id_changed txt => exact h
  | manual_data_changed txt => exact h
  | manual_repeat_sw checked => exact h
  | manual_interval_changed txt => exact h
  | goto_auto => exact h
  | goto_manual => exact h
  | transmit tmv =>
    simp only [PanelEvent.run, on_transmit]
    split <;> split
    · exact PanelOneEach_schedule _ _ _ (PanelOneEach_arm _ _ h)
    · exact PanelOneEach_schedule _ _ _ h
    · exact PanelOneEach_schedule _ _ _ (PanelOneEach_arm _ _ h)
    · exact PanelOneEach_schedule _ _ _ h
  | stop tmv =>
    simp only [PanelEvent.run, on_stop_eq]
    exact OneEach_stop h
  | clear => exact h
  | timer_fire t tmv =>
    simp only [PanelEvent.run, lv_timer_fire]
    split
    · exact h
    · split
      · simp only [repeat_tick_cb]
        split <;> exact PanelOneEach_schedule _ _ _ h
      · exact OneEach_cancel h (some t)
      · exact OneEach_cancel h (some t)

/-- Pairwise different handles that are all equal to `x` are at most one handle. -/
theorem length_le_one_of_nodup_const (l : List Nat) (x : Nat) (hn : l.Nodup)
    (hc : ∀ a ∈ l, a = x) : l.length ≤ 1 := by
  match l, hn, hc with
  | [], _, _ => simp
  | [_], _, _ => simp
  | a :: b :: rest, hn, hc =>
    have ha : a = x := hc a (by simp)
    have hb : b = x := hc b (by simp)
    rw [ha, hb] at hn
    simp at hn

/-- Under the bookkeeping, the timers of one kind are at most one. -/
theorem OneEach_count {timers : List lv_timer_t} {next : Nat} {rep rx : Option Nat}
    (h : OneEach timers next rep rx) :
    (timers.filter (fun t => t.timer_cb = TimerCb.repeat_tick_cb)).length ≤ 1 ∧
    (timers.filter (fun t => t.timer_cb ≠ TimerCb.repeat_tick_cb)).length ≤ 1 := by
  have key : ∀ (p : lv_timer_t → Bool) (x : Option Nat),
      (∀ t ∈ timers, p t = true → x = some t.handle) → (timers.filter p).length ≤ 1 := by
    intro p x hp
    have hnd : ((timers.filter p).map (fun t => t.handle)).Nodup :=
      List.Nodup.sublist (List.Sublist.map _ (List.filter_sublist _)) h.2.1
    cases x with
    | none =>
      have hnil : timers.filter p = [] := by
        rw [List.filter_eq_nil_iff]
        intro t ht hpt
        exact absurd (hp t ht hpt) (by simp)
      rw [hnil]
      simp
    | some v =>
      have := length_le_one_of_nodup_const _ v hnd (by
        intro a ha
        obtain ⟨t, ht, rfl⟩ := List.mem_map.1 ha
        have hm := List.mem_filter.1 ht
        exact (Option.some.inj (hp t hm.1 hm.2)).symm)
      simpa using this
  constructor
  · exact key _ rep (fun t ht hp => h.2.2.1 t ht (by simpa using hp))
  · exact key _ rx (fun t ht hp => h.2.2.2 t ht (by simpa using hp))

/-- C23. In every state of a panel created with no live timer, at most one periodic
(`repeat_tick_cb`) timer and at most one ack timer are live. `schedule_rx_delay` cancels the
timer `timer_rx_delay` refers to before it creates the new ack timer, and the arming lines
of `on_transmit` cancel the timer `timer_repeat` refers to before they create the new
periodic timer. -/
theorem C23_at_most_one_timer_of_each_kind (w0 : Panel) (evs : List PanelEvent)
    (h0 : w0.timers = []) :
    ((run_panel w0 evs).timers.filter
      (fun t => t.timer_cb = TimerCb.repeat_tick_cb)).length ≤ 1 ∧
    ((run_panel w0 evs).timers.filter
      (fun t => t.timer_cb ≠ TimerCb.repeat_tick_cb)).length ≤ 1 ∧
    (∀ (w : Panel) (ms : Int) (is_manual : Bool),
      (schedule_rx_delay w ms is_manual).timers =
        cancel_timer w.timers w.ui.timer_rx_delay ++
          [{ handle := w.next_handle
             timer_cb := if is_manual then TimerCb.rx_manual_cb else TimerCb.rx_auto_cb
             period := to_uint32 ms }] ∧
      (schedule_rx_delay w ms is_manual).ui.timer_rx_delay = some w.next_handle) ∧
    (∀ (w : Panel) (period : Nat),
      (arm_repeat w period).timers =
        cancel_timer w.timers w.ui.timer_repeat ++
          [{ handle := w.next_handle, timer_cb := TimerCb.repeat_tick_cb, period := period }] ∧
      (arm_repeat w period).ui.timer_repeat = some w.next_handle) := by
  have hinit : PanelOneEach (signal_panel_create w0) := by
    have ht : (signal_panel_create w0).timers = [] := h0
    unfold PanelOneEach OneEach
    rw [ht]
    simp
  have hinv : PanelOneEach (run_panel w0 evs) :=
    foldl_invariant PanelEvent.run PanelOneEach (fun w e h => PanelOneEach_step w e h) evs
      (signal_panel_create w0) hinit
  refine ⟨(OneEach_count hinv).1, (OneEach_count hinv).2, ?_, ?_⟩
  · intro w ms is_manual
    rw [schedule_rx_delay_eq]
    exact ⟨rfl, rfl⟩
  · intro w period
    rw [arm_repeat_eq]
    exact ⟨rfl, rfl⟩

/-- C23, witness: two transmits of a repeating function with a tick in between leave one
periodic timer and one ack timer. -/
theorem C23_at_most_one_timer_of_each_kind_witness :
    (run_panel panel_zero
      [PanelEvent.connect_sw, PanelEvent.function_changed (cstr "油门控制"),
       PanelEvent.transmit noon, PanelEvent.timer_fire 0 noon, PanelEvent.transmit noon]).timers
      = [{ handle := 3, timer_cb := TimerCb.repeat_tick_cb, period := 1500 },
         { handle := 4, timer_cb := TimerCb.rx_auto_cb, period := 500 }] ∧
    ((run_panel panel_zero
      [PanelEvent.connect_sw, PanelEvent.function_changed (cstr "油门控制"),
       PanelEvent.transmit noon, PanelEvent.timer_fire 0 noon,
       PanelEvent.transmit noon]).timers.filter
      (fun t => t.timer_cb ≠ TimerCb.repeat_tick_cb)).length ≤ 1 :=
  ⟨by decide,
   (C23_at_most_one_timer_of_each_kind panel_zero
      [PanelEvent.connect_sw, PanelEvent.function_changed (cstr "油门控制"),
       PanelEvent.transmit noon, PanelEvent.timer_fire 0 noon, PanelEvent.transmit noon]
      rfl).2.1⟩

/-! ### Messages, defaults, lookups, frames -/

/-- With both selection fields within their 31 bytes the automatic text is not cut. -/
theorem auto_text_full (s : SignalPanelState) (hc : s.selectedCategory.length ≤ 31)
    (hf : s.selectedFunction.length ≤ 31) :
    auto_text s = s.selectedCategory ++ cstr " - " ++ s.selectedFunction := by
  unfold auto_text snprintf_s
  apply List.take_of_length_le
  have h3 : (cstr " - ").length = 3 := by decide
  simp only [List.length_append, h3]
  omega

/-- The manual text as it is stored: the 200-byte buffer cut again to 159 bytes. -/
theorem manual_text_take (s : SignalPanelState) :
    (manual_text s).take 159 =
      (cstr "CAN ID: " ++ s.manualId ++ cstr " | Data: " ++ s.manualData).take 159 := by
  unfold manual_text snprintf_s
  rw [List.take_take]
  rfl

/-- C24. Each TX operation builds its message from the fields of the state it is called on.
With `selectedCategory` and `selectedFunction` within the 31 bytes of their fields,
`logic_start_repeating_auto`, `logic_send_auto_once` and `logic_repeat_auto_tick` append
exactly `selectedCategory ++ " - " ++ selectedFunction`; `logic_start_repeating_manual`,
`logic_send_manual_once` and `logic_repeat_manual_tick` append the first 159 bytes of
`"CAN ID: " ++ manualId ++ " | Data: " ++ manualData`. So when the manual fields are changed
after a tick, the next tick's entry carries the new fields. -/
theorem C24_tx_message_from_live_fields (s : SignalPanelState) (tmv : Tm)
    (hc : s.selectedCategory.length ≤ 31) (hf : s.selectedFunction.length ≤ 31) :
    Appends s (logic_start_repeating_auto s tmv) LogType.LOG_TX
      (s.selectedCategory ++ cstr " - " ++ s.selectedFunction) tmv ∧
    Appends s (logic_send_auto_once s tmv) LogType.LOG_TX
      (s.selectedCategory ++ cstr " - " ++ s.selectedFunction) tmv ∧
    Appends s (logic_repeat_auto_tick s tmv) LogType.LOG_TX
      (s.selectedCategory ++ cstr " - " ++ s.selectedFunction) tmv ∧
    Appends s (logic_start_repeating_manual s tmv) LogType.LOG_TX
      ((cstr "CAN ID: " ++ s.manualId ++ cstr " | Data: " ++ s.manualData).take 159) tmv ∧
    Appends s (logic_send_manual_once s tmv) LogType.LOG_TX
      ((cstr "CAN ID: " ++ s.manualId ++ cstr " | Data: " ++ s.manualData).take 159) tmv ∧
    Appends s (logic_repeat_manual_tick s tmv) LogType.LOG_TX
      ((cstr "CAN ID: " ++ s.manualId ++ cstr " | Data: " ++ s.manualData).take 159) tmv ∧
    (∀ (id1 data1 : Bytes) (tm2 : Tm),
      Appends { logic_repeat_manual_tick s tmv with manualId := id1, manualData := data1 }
        (logic_repeat_manual_tick
          { logic_repeat_manual_tick s tmv with manualId := id1, manualData := data1 } tm2)
        LogType.LOG_TX
        ((cstr "CAN ID: " ++ id1 ++ cstr " | Data: " ++ data1).take 159) tm2) := by
  have hauto : (auto_text s).take 159 =
      s.selectedCategory ++ cstr " - " ++ s.selectedFunction :=
    (auto_text_take s).trans (auto_text_full s hc hf)
  refine ⟨?_, ?_, ?_, ?_, ?_, ?_, ?_⟩
  · exact Appends_of_msg_eq (logic_add_log_appends
      { s with isTransmitting := 1, isRepeating := 1 } LogType.LOG_TX (auto_text s) tmv) hauto
  · exact Appends_of_msg_eq (logic_add_log_appends
      { s with isTransmitting := 1 } LogType.LOG_TX (auto_text s) tmv) hauto
  · exact Appends_of_msg_eq (logic_add_log_appends s LogType.LOG_TX (auto_text s) tmv) hauto
  · exact Appends_of_msg_eq (logic_add_log_appends
      { s with isTransmitting := 1, isRepeating := 1 } LogType.LOG_TX (manual_text s) tmv)
      (manual_text_take s)
  · exact Appends_of_msg_eq (logic_add_log_appends
      { s with isTransmitting := 1 } LogType.LOG_TX (manual_text s) tmv) (manual_text_take s)
  · exact Appends_of_msg_eq (logic_add_log_appends s LogType.LOG_TX (manual_text s) tmv)
      (manual_text_take s)
  · intro id1 data1 tm2
    exact Appends_of_msg_eq (logic_add_log_appends
      { logic_repeat_manual_tick s tmv with manualId := id1, manualData := data1 }
      LogType.LOG_TX
      (manual_text
        { logic_repeat_manual_tick s tmv with manualId := id1, manualData := data1 }) tm2)
      (manual_text_take _)

/-- C24, witness: a manual tick, then the id is changed from "0x1" to "0x2", then a second
tick: the two entries carry "0x1" and "0x2". -/
theorem C24_tx_message_from_live_fields_witness :
    ((logic_repeat_manual_tick
      { logic_init with manualId := cstr "0x1", manualData := cstr "[1]" } noon).logs 0).message
      = cstr "CAN ID: 0x1 | Data: [1]" ∧
    ((logic_repeat_manual_tick
      { logic_repeat_manual_tick
          { logic_init with manualId := cstr "0x1", manualData := cstr "[1]" } noon with
        manualId := cstr "0x2", manualData := cstr "[1]" } noon).logs 1).message
      = cstr "CAN ID: 0x2 | Data: [1]" := by
  have h := C24_tx_message_from_live_fields
    { logic_init with manualId := cstr "0x1", manualData := cstr "[1]" } noon
    (by decide) (by decide)
  obtain ⟨i, hi, he⟩ := h.2.2.2.2.2.1.2.2.2 (by decide)
  obtain ⟨j, hj, hf⟩ := (h.2.2.2.2.2.2 (cstr "0x2") (cstr "[1]") noon).2.2.2 (by decide)
  have hi0 : i = 0 := by
    apply Fin.ext
    have h1 : (i.val : Int) = 0 := hi
    have h2 : ((0 : Fin 256).val : Int) = 0 := rfl
    omega
  have hj1 : j = 1 := by
    apply Fin.ext
    have h1 : (j.val : Int) = 1 := hj
    have h2 : ((1 : Fin 256).val : Int) = 1 := rfl
    omega
  rw [hi0] at he
  rw [hj1] at hf
  rw [he, hf]
  exact ⟨by decide, by decide⟩

/-- C25. The defaults of a fresh session. After `logic_init`: Auto view, scene "B", category
"显示 (Display)", function "启动发动机" (index 0 of Display), `manualInterval = 1000`, an
empty log with `next_log_id = 0`, empty manual id and data, `manualRepeat = 0`, and
`isConnected = isTransmitting = isRepeating = 0`. After `ui_state_init`: the corresponding
values. -/
theorem C25_defaults :
    logic_init.viewMode = ViewMode.VIEW_AUTO ∧
    logic_init.selectedScene = cstr "B" ∧
    logic_init.selectedCategory = cstr "显示 (Display)" ∧
    logic_init.selectedFunction = cstr "启动发动机" ∧
    logic_init.selectedFunction = display_funcs 0 ∧
    logic_init.manualInterval = 1000 ∧
    logic_init.log_count = 0 ∧
    logic_init.next_log_id = 0 ∧
    logic_init.manualId = [] ∧
    logic_init.manualData = [] ∧
    logic_init.manualRepeat = 0 ∧
    logic_init.isConnected = 0 ∧
    logic_init.isTransmitting = 0 ∧
    logic_init.isRepeating = 0 ∧
    log_entries logic_init = [] ∧
    ui_state_init.view_mode = ui_view_mode_t.VIEW_MODE_AUTO ∧
    ui_state_init.selected_scene = cstr "B" ∧
    ui_state_init.selected_category = 0 ∧
    ui_state_init.selected_function = 0 ∧
    ui_state_init.manual_interval = 1000 ∧
    ui_state_init.log_count = 0 ∧
    ui_state_init.manual_id = [] ∧
    ui_state_init.manual_data = [] ∧
    ui_state_init.manual_repeat = false ∧
    ui_state_init.is_connected = false ∧
    ui_state_init.is_transmitting = false ∧
    ui_state_init.is_repeating = false :=
  ⟨rfl, rfl, rfl, rfl, rfl, rfl, rfl, rfl, rfl, rfl, rfl, rfl, rfl, rfl, rfl, rfl, rfl, rfl,
   rfl, rfl, rfl, rfl, rfl, rfl, rfl, rfl, rfl⟩

/-- A name of more than 12 bytes is none of the three repeating function names. -/
theorem repeat_interval_for_long (func : Bytes) (h : 13 ≤ func.length) :
    repeat_interval_for func = 0 := by
  have h1 : (cstr "调节座椅").length = 12 := by decide
  have h2 : (cstr "气囊检测").length = 12 := by decide
  have h3 : (cstr "油门控制").length = 12 := by decide
  have n1 : func ≠ cstr "调节座椅" := fun e => by rw [e, h1] at h; omega
  have n2 : func ≠ cstr "气囊检测" := fun e => by rw [e, h2] at h; omega
  have n3 : func ≠ cstr "油门控制" := fun e => by rw [e, h3] at h; omega
  simp [repeat_interval_for, n1, n2, n3]

/-- C26. For every state `s` and name `f`, the lookup of the function stored by
`logic_set_function(s, f)` equals the lookup of `f` itself: cutting the name to the 31 bytes
of the field never changes the result. After `logic_set_category("声音 (Sound)")` and
`logic_set_function("调节座椅")` the lookup gives 2000. -/
theorem C26_lookup_sees_selected_function (s : SignalPanelState) (f : Bytes) :
    logic_get_repeat_interval_for_function (logic_set_function s f).selectedFunction =
      logic_get_repeat_interval_for_function f ∧
    logic_get_repeat_interval_for_function
      (logic_set_function (logic_set_category s (cstr "声音 (Sound)"))
        (cstr "调节座椅")).selectedFunction = 2000 := by
  constructor
  · show repeat_interval_for (List.take 31 f) = repeat_interval_for f
    by_cases hlen : f.length ≤ 31
    · rw [List.take_of_length_le hlen]
    · have hf : 13 ≤ f.length := by omega
      have ht : 13 ≤ (List.take 31 f).length := by
        rw [List.length_take]
        omega
      rw [repeat_interval_for_long _ hf, repeat_interval_for_long _ ht]
  · show repeat_interval_for (List.take 31 (cstr "调节座椅")) = 2000
    decide

/-- C27. `logic_toggle_connected` changes `isConnected` only (0 becomes 1, every other value
becomes 0); `goto_auto` and `goto_manual` of the port panel change, of the state, the view
mode only, and leave the timers and both timer handles as they are (of the widgets they
re-evaluate the disabled bit of the transmit button); `ui_state_set_view_mode` changes
`view_mode` only. In particular `isTransmitting`, `isRepeating` and the log are unchanged. -/
theorem C27_connect_and_mode_switch_frame :
    (∀ s : SignalPanelState,
      logic_toggle_connected s =
        { s with isConnected := if s.isConnected = 0 then 1 else 0 } ∧
      (s.isConnected = 0 → (logic_toggle_connected s).isConnected = 1) ∧
      (s.isConnected ≠ 0 → (logic_toggle_connected s).isConnected = 0) ∧
      (logic_toggle_connected s).isTransmitting = s.isTransmitting ∧
      (logic_toggle_connected s).isRepeating = s.isRepeating ∧
      (logic_toggle_connected s).log_count = s.log_count ∧
      (logic_toggle_connected s).next_log_id = s.next_log_id ∧
      (logic_toggle_connected s).logs = s.logs) ∧
    (∀ w : Panel,
      (goto_auto w).ui.state = { w.ui.state with viewMode := ViewMode.VIEW_AUTO } ∧
      (goto_manual w).ui.state = { w.ui.state with viewMode := ViewMode.VIEW_MANUAL } ∧
      (goto_auto w).timers = w.timers ∧ (goto_manual w).timers = w.timers ∧
      (goto_auto w).ui.timer_repeat = w.ui.timer_repeat ∧
      (goto_manual w).ui.timer_repeat = w.ui.timer_repeat ∧
      (goto_auto w).ui.timer_rx_delay = w.ui.timer_rx_delay ∧
      (goto_manual w).ui.timer_rx_delay = w.ui.timer_rx_delay ∧
      (goto_manual w).ui.state.isTransmitting = w.ui.state.isTransmitting ∧
      (goto_manual w).ui.state.isRepeating = w.ui.state.isRepeating ∧
      (goto_auto w).ui.state.isTransmitting = w.ui.state.isTransmitting ∧
      (goto_auto w).ui.state.isRepeating = w.ui.state.isRepeating ∧
      (on_connect_sw w).ui.state = logic_toggle_connected w.ui.state ∧
      (on_connect_sw w).timers = w.timers ∧
      (on_connect_sw w).ui.timer_repeat = w.ui.timer_repeat ∧
      (on_connect_sw w).ui.timer_rx_delay = w.ui.timer_rx_delay) ∧
    (∀ (g : ui_state_t) (mode : ui_view_mode_t),
      ui_state_set_view_mode g mode = { g with view_mode := mode } ∧
      (ui_state_set_view_mode g mode).is_transmitting = g.is_transmitting ∧
      (ui_state_set_view_mode g mode).is_repeating = g.is_repeating ∧
      (ui_state_set_view_mode g mode).log_count = g.log_count) := by
  refine ⟨?_, ?_, ?_⟩
  · intro s
    refine ⟨rfl, ?_, ?_, rfl, rfl, rfl, rfl, rfl⟩
    · intro h
      simp [logic_toggle_connected, h]
    · intro h
      simp [logic_toggle_connected, h]
  · intro w
    exact ⟨rfl, rfl, rfl, rfl, rfl, rfl, rfl, rfl, rfl, rfl, rfl, rfl, rfl, rfl, rfl, rfl⟩
  · intro g mode
    exact ⟨rfl, rfl, rfl, rfl⟩

/-- C27, witness: during a repeating session (Sound, "调节座椅") the panel is disconnected
and switched to the manual view: both flags stay 1 and both timers stay live. -/
theorem C27_connect_and_mode_switch_frame_witness :
    (run_panel panel_zero
      [PanelEvent.connect_sw, PanelEvent.category_changed (cstr "声音 (Sound)"),
       PanelEvent.function_changed (cstr "调节座椅"), PanelEvent.transmit noon,
       PanelEvent.connect_sw, PanelEvent.goto_manual]).ui.state.isConnected = 0 ∧
    (run_panel panel_zero
      [PanelEvent.connect_sw, PanelEvent.category_changed (cstr "声音 (Sound)"),
       PanelEvent.function_changed (cstr "调节座椅"), PanelEvent.transmit noon,
       PanelEvent.connect_sw, PanelEvent.goto_manual]).ui.state.isRepeating = 1 ∧
    (run_panel panel_zero
      [PanelEvent.connect_sw, PanelEvent.category_changed (cstr "声音 (Sound)"),
       PanelEvent.function_changed (cstr "调节座椅"), PanelEvent.transmit noon,
       PanelEvent.connect_sw, PanelEvent.goto_manual]).timers
      = [{ handle := 0, timer_cb := TimerCb.repeat_tick_cb, period := 2000 },
         { handle := 1, timer_cb := TimerCb.rx_auto_cb, period := 500 }] ∧
    (logic_toggle_connected (logic_toggle_connected logic_init)).isConnected = 0 :=
  ⟨by decide, by decide, by decide,
   (C27_connect_and_mode_switch_frame.1 (logic_toggle_connected logic_init)).2.2.1
     (by decide)⟩

/-- C28. A stored entry stays as it is until a later append writes its position. With
`log_count < 256`, `logic_add_log` leaves the entries at the positions below `log_count`
unchanged; with `log_count = 256` it changes no entry but the one at position 0;
`logic_clear_logs` changes no stored entry. -/
theorem C28_entries_immutable (s : SignalPanelState) (type : LogType) (msg : Bytes)
    (tmv : Tm) :
    (s.log_count < 256 → ∀ i : Fin 256, (i.val : Int) < s.log_count →
      (logic_add_log s type msg tmv).logs i = s.logs i) ∧
    (s.log_count = 256 → ∀ i : Fin 256, i ≠ 0 →
      (logic_add_log s type msg tmv).logs i = s.logs i) ∧
    (logic_clear_logs s).logs = s.logs := by
  refine ⟨?_, ?_, rfl⟩
  · intro hlt i hi
    apply logic_add_log_other
    rw [log_slot_of_lt s hlt]
    omega
  · intro hfull i hi
    apply logic_add_log_other
    have hslot : log_slot s = 0 := by simp [log_slot, hfull]
    rw [hslot]
    intro h0
    apply hi
    apply Fin.ext
    have h2 : ((0 : Fin 256).val : Int) = 0 := rfl
    omega

/-- C28, witness: a second append leaves the first entry, at position 0, as it was. -/
theorem C28_entries_immutable_witness :
    (logic_add_log (logic_add_log logic_init LogType.LOG_TX (cstr "a") noon)
      LogType.LOG_RX (cstr "b") noon).logs 0 =
    (logic_add_log logic_init LogType.LOG_TX (cstr "a") noon).logs 0 :=
  (C28_entries_immutable (logic_add_log logic_init LogType.LOG_TX (cstr "a") noon)
    LogType.LOG_RX (cstr "b") noon).1 (by decide) 0 (by decide)

/-- C29, the code at the failing input: connect, transmit a one-shot function, let its ack
timer (handle 0) come due, press Stop. `rx_auto_cb` has deleted timer 0, no timer is live,
and `timer_rx_delay` still holds handle 0 after the callback and after Stop; the transmit
button is enabled again, and the next transmit runs `schedule_rx_delay` with that handle,
which it passes to `lv_timer_delete`. -/
theorem C29_dangling_ack_handle :
    (run_panel panel_zero
      [PanelEvent.connect_sw, PanelEvent.transmit noon,
       PanelEvent.timer_fire 0 noon]).timers = [] ∧
    (run_panel panel_zero
      [PanelEvent.connect_sw, PanelEvent.transmit noon,
       PanelEvent.timer_fire 0 noon]).ui.timer_rx_delay = some 0 ∧
    dangling
      (run_panel panel_zero
        [PanelEvent.connect_sw, PanelEvent.transmit noon,
         PanelEvent.timer_fire 0 noon, PanelEvent.stop noon]).timers
      (run_panel panel_zero
        [PanelEvent.connect_sw, PanelEvent.transmit noon,
         PanelEvent.timer_fire 0 noon, PanelEvent.stop noon]).ui.timer_rx_delay = true ∧
    (run_panel panel_zero
      [PanelEvent.connect_sw, PanelEvent.transmit noon,
       PanelEvent.timer_fire 0 noon, PanelEvent.stop noon]).transmit_btn_disabled = false ∧
    schedule_rx_delay
      (run_panel panel_zero
        [PanelEvent.connect_sw, PanelEvent.transmit noon,
         PanelEvent.timer_fire 0 noon, PanelEvent.stop noon]) 1000 false =
      schedule_rx_delay
        { lv_timer_delete
            (run_panel panel_zero
              [PanelEvent.connect_sw, PanelEvent.transmit noon,
               PanelEvent.timer_fire 0 noon, PanelEvent.stop noon]) 0 with
          ui := { (run_panel panel_zero
              [PanelEvent.connect_sw, PanelEvent.transmit noon,
               PanelEvent.timer_fire 0 noon, PanelEvent.stop noon]).ui with
            timer_rx_delay := none } } 1000 false :=
  ⟨by decide, by decide, by decide, by decide, rfl⟩

/-- C30. The two function catalogs agree. For every category `c < 3` and index `i < 3`: when
`ui_config_is_repeating_function(c, i, &out)` returns true, the interval it writes to `out`
is the value `logic_get_repeat_interval_for_function` returns for the name
`ui_config_get_function_name(c, i)`; when it returns false, that value is 0. -/
theorem C30_catalogs_agree (c i out : Nat) (hc : c < 3) (hi : i < 3) :
    ((ui_config_is_repeating_function c i (some out)).1 = true →
      (ui_config_is_repeating_function c i (some out)).2.map Int.ofNat =
        some (logic_get_repeat_interval_for_function (ui_config_get_function_name c i))) ∧
    ((ui_config_is_repeating_function c i (some out)).1 = false →
      logic_get_repeat_interval_for_function (ui_config_get_function_name c i) = 0) := by
  have hc3 : c = 0 ∨ c = 1 ∨ c = 2 := by omega
  have hi3 : i = 0 ∨ i = 1 ∨ i = 2 := by omega
  rcases hc3 with rfl | rfl | rfl <;> rcases hi3 with rfl | rfl | rfl <;>
    refine ⟨fun h => ?_, fun h => ?_⟩ <;>
    first
      | rfl
      | exact absurd (show false = true from h) Bool.false_ne_true
      | exact absurd (show true = false from h) (fun e => Bool.noConfusion e)

/-- C30, witness: Sound, index 2 ("调节座椅"): both catalogs say 2000; Display, index 0: the
table has no entry and the lookup gives 0. -/
theorem C30_catalogs_agree_witness :
    (ui_config_is_repeating_function 1 2 (some 0)).2.map Int.ofNat =
      some (logic_get_repeat_interval_for_function (ui_config_get_function_name 1 2)) ∧
    logic_get_repeat_interval_for_function (ui_config_get_function_name 1 2) = 2000 ∧
    logic_get_repeat_interval_for_function (ui_config_get_function_name 0 0) = 0 :=
  ⟨(C30_catalogs_agree 1 2 0 (by decide) (by decide)).1 (by decide),
   by decide,
   (C30_catalogs_agree 0 0 0 (by decide) (by decide)).2 (by decide)⟩

end TransmitHMI
